import Mathlib

/-!
Verification development for the v-axion-ai actor-orchestration core.

The definitions below are a shallow embedding of the Python source:
  * `interolog.py`      — `Orchestrator`, `Monologue`, `extract_json`
  * `models/actions.py` — the eleven-variant action protocol and `parse_actions`
  * `models/state.py`   — `MonologueStateModel`
  * `action_registry.py`— the role-scoped capability handler table
  * `tool_registry.py`  — `ToolRegistry`

Python dictionaries are modelled as insertion-ordered association lists
(`dget` / `dinsert` / `dpop` / `dupd` mirror `d[k]`, `d[k] = v`, `d.pop(k)`
and in-place mutation of a value).  Python exceptions that the source lets
escape are modelled as an `Option String` / `Except String` error component
carrying `str(e)`, with all mutations performed before the raise preserved.
Timestamps (`time.time()`) are modelled by a monotone `Nat` clock, and
`uuid.uuid4().hex[:8]` by an externally supplied identifier stream.
-/

namespace VAxion

/-- Insertion-ordered dictionary lookup (`d.get(k)` / `d[k]`). -/
def dget {α : Type} : List (String × α) → String → Option α
  | [], _ => none
  | (k', v) :: t, k => if k' = k then some v else dget t k

/-- Insertion-ordered dictionary assignment `d[k] = v`: an existing key keeps
its position (Python dict semantics), a new key is appended. -/
def dinsert {α : Type} : List (String × α) → String → α → List (String × α)
  | [], k, v => [(k, v)]
  | (k', v') :: t, k, v =>
    if k' = k then (k', v) :: t else (k', v') :: dinsert t k v

/-- Dictionary removal `d.pop(k, None)`: returns the removed value (if any)
together with the remaining dictionary. -/
def dpop {α : Type} : List (String × α) → String → Option α × List (String × α)
  | [], _ => (none, [])
  | (k', v') :: t, k =>
    if k' = k then (some v', t)
    else
      let r := dpop t k
      (r.1, (k', v') :: r.2)

/-- In-place mutation of the value stored under a key (`d[k].field = ...`). -/
def dupd {α : Type} (l : List (String × α)) (k : String) (f : α → α) :
    List (String × α) :=
  l.map (fun kv => if kv.1 = k then (kv.1, f kv.2) else kv)

/-- JSON values as produced by `json.loads`.  Numbers are modelled as
rationals (decimal literals are exact); objects are insertion-ordered maps
with unique keys (a duplicate key keeps the first position, last value, as
in CPython). -/
inductive Json where
  | null : Json
  | bool (b : Bool) : Json
  | num (q : Rat) : Json
  | str (s : String) : Json
  | arr (items : List Json) : Json
  | obj (fields : List (String × Json)) : Json
deriving Inhabited

def lbrace : Char := Char.ofNat 123
def rbrace : Char := Char.ofNat 125
def dquote : Char := Char.ofNat 34
def bslash : Char := Char.ofNat 92

/-- JSON insignificant whitespace (as accepted by Python `json.loads`). -/
def skipWs : List Char → List Char
  | c :: t =>
    if c = (' ') ∨ c = (Char.ofNat 9) ∨ c = (Char.ofNat 10) ∨ c = (Char.ofNat 13) then
      skipWs t
    else c :: t
  | [] => []

def hexVal (c : Char) : Option Nat :=
  if c.isDigit then some (c.toNat - 48)
  else if ('a') ≤ c ∧ c ≤ ('f') then some (c.toNat - 87)
  else if ('A') ≤ c ∧ c ≤ ('F') then some (c.toNat - 55)
  else none

/-- Body of a JSON string literal (after the opening quote), with the
standard escapes; unescaped control characters are rejected, as in the
strict (default) mode of `json.loads`. -/
def parseStrAux : List Char → List Char → Option (String × List Char)
  | acc, c :: t =>
    if c = dquote then some (String.mk acc.reverse, t)
    else if c = bslash then
      match t with
      | e :: t2 =>
        if e = dquote then parseStrAux (dquote :: acc) t2
        else if e = bslash then parseStrAux (bslash :: acc) t2
        else if e = ('/') then parseStrAux (('/') :: acc) t2
        else if e = ('b') then parseStrAux ((Char.ofNat 8) :: acc) t2
        else if e = ('f') then parseStrAux ((Char.ofNat 12) :: acc) t2
        else if e = ('n') then parseStrAux ((Char.ofNat 10) :: acc) t2
        else if e = ('r') then parseStrAux ((Char.ofNat 13) :: acc) t2
        else if e = ('t') then parseStrAux ((Char.ofNat 9) :: acc) t2
        else if e = ('u') then
          match t2 with
          | h1 :: h2 :: h3 :: h4 :: t3 =>
            match hexVal h1, hexVal h2, hexVal h3, hexVal h4 with
            | some a, some b, some c2, some d =>
              parseStrAux ((Char.ofNat (((a * 16 + b) * 16 + c2) * 16 + d)) :: acc) t3
            | _, _, _, _ => none
          | _ => none
        else none
      | [] => none
    else if c.toNat < 32 then none
    else parseStrAux (c :: acc) t
  | _, [] => none

def digitsToNat (l : List Char) : Nat :=
  l.foldl (fun acc c => acc * 10 + (c.toNat - 48)) 0

/-- Optional fraction part: a dot must be followed by at least one digit. -/
def parseFrac : List Char → Option (List Char × List Char)
  | c :: t =>
    if c = ('.') then
      let p := t.span (fun x => x.isDigit)
      if p.1.isEmpty then none else some p
    else some ([], c :: t)
  | [] => some ([], [])

/-- Optional exponent part. -/
def parseExp : List Char → Option (Int × List Char)
  | c :: t =>
    if c = ('e') ∨ c = ('E') then
      let sr : Int × List Char :=
        match t with
        | c2 :: t2 =>
          if c2 = ('-') then (-1, t2)
          else if c2 = ('+') then (1, t2) else (1, c2 :: t2)
        | [] => (1, [])
      let p := sr.2.span (fun x => x.isDigit)
      if p.1.isEmpty then none
      else some (sr.1 * (digitsToNat p.1 : Int), p.2)
    else some (0, c :: t)
  | [] => some (0, [])

/-- JSON number grammar (`-? int frac? exp?`, no leading zeros). -/
def parseNum (cs : List Char) : Option (Rat × List Char) :=
  let sp : Int × List Char :=
    match cs with
    | c :: t => if c = ('-') then (-1, t) else (1, cs)
    | [] => (1, cs)
  let ip := sp.2.span (fun x => x.isDigit)
  if ip.1.isEmpty then none
  else if 1 < ip.1.length ∧ ip.1.headD ('0') = ('0') then none
  else
    match parseFrac ip.2 with
    | none => none
    | some fp =>
      match parseExp fp.2 with
      | none => none
      | some ep =>
        let mant : Int :=
          sp.1 * ((digitsToNat ip.1 * 10 ^ fp.1.length + digitsToNat fp.1 : Nat) : Int)
        let q : Rat :=
          if 0 ≤ ep.1 then mkRat (mant * (10 : Int) ^ ep.1.toNat) (10 ^ fp.1.length)
          else mkRat mant (10 ^ fp.1.length * 10 ^ (-ep.1).toNat)
        some (q, ep.2)

mutual

/-- Recursive-descent JSON value parser (fuel-indexed; the fuel supplied by
`parseJson` always suffices). -/
def parseV : Nat → List Char → Option (Json × List Char)
  | 0, _ => none
  | Nat.succ fuel, cs =>
    match skipWs cs with
    | [] => none
    | c :: t =>
      if c = lbrace then
        match skipWs t with
        | c2 :: t2 => if c2 = rbrace then some (Json.obj [], t2) else parseMembers fuel [] (c2 :: t2)
        | [] => none
      else if c = ('[') then
        match skipWs t with
        | c2 :: t2 => if c2 = (']') then some (Json.arr [], t2) else parseItems fuel [] (c2 :: t2)
        | [] => none
      else if c = dquote then
        (parseStrAux [] t).map (fun p => (Json.str p.1, p.2))
      else if c = ('t') then
        match t with
        | r :: u :: e :: t2 =>
          if r = ('r') ∧ u = ('u') ∧ e = ('e') then some (Json.bool true, t2) else none
        | _ => none
      else if c = ('f') then
        match t with
        | a :: l :: s2 :: e :: t2 =>
          if a = ('a') ∧ l = ('l') ∧ s2 = ('s') ∧ e = ('e') then some (Json.bool false, t2)
          else none
        | _ => none
      else if c = ('n') then
        match t with
        | u :: l :: l2 :: t2 =>
          if u = ('u') ∧ l = ('l') ∧ l2 = ('l') then some (Json.null, t2) else none
        | _ => none
      else (parseNum (c :: t)).map (fun p => (Json.num p.1, p.2))

/-- Object members after the opening brace (duplicate keys: last wins). -/
def parseMembers : Nat → List (String × Json) → List Char → Option (Json × List Char)
  | 0, _, _ => none
  | Nat.succ fuel, acc, cs =>
    match skipWs cs with
    | c :: t =>
      if c = dquote then
        match parseStrAux [] t with
        | some (k, r1) =>
          match skipWs r1 with
          | c2 :: r2 =>
            if c2 = (':') then
              match parseV fuel r2 with
              | some (v, r3) =>
                let acc2 := dinsert acc k v
                match skipWs r3 with
                | c3 :: r4 =>
                  if c3 = (',') then parseMembers fuel acc2 r4
                  else if c3 = rbrace then some (Json.obj acc2, r4)
                  else none
                | [] => none
              | none => none
            else none
          | [] => none
        | none => none
      else none
    | [] => none

/-- Array items after the opening bracket. -/
def parseItems : Nat → List Json → List Char → Option (Json × List Char)
  | 0, _, _ => none
  | Nat.succ fuel, acc, cs =>
    match parseV fuel cs with
    | some (v, r1) =>
      match skipWs r1 with
      | c :: r2 =>
        if c = (',') then parseItems fuel (v :: acc) r2
        else if c = (']') then some (Json.arr (v :: acc).reverse, r2)
        else none
      | [] => none
    | none => none

end

/-- `json.loads`: parse a complete document (trailing whitespace allowed,
trailing junk rejected); `none` models a raised `JSONDecodeError`. -/
def parseJson (s : String) : Option Json :=
  match parseV (2 * s.data.length + 4) s.data with
  | some (v, rest) => if (skipWs rest).isEmpty then some v else none
  | none => none

/-- Index of the last character satisfying a predicate. -/
def lastIdx (p : Char → Bool) (cs : List Char) : Option Nat :=
  match cs.reverse.findIdx? p with
  | some k => some (cs.length - 1 - k)
  | none => none

/-- The span matched by `re.search(r"\x7b.*\x7d", text, re.S)`: from the
first opening brace to the last closing brace strictly after it (leftmost
start, greedy end). -/
def braceSpan (s : String) : Option String :=
  let cs := s.data
  match cs.findIdx? (fun c => c = lbrace), lastIdx (fun c => c = rbrace) cs with
  | some i, some j =>
    if i < j then some (String.mk ((cs.drop i).take (j - i + 1))) else none
  | _, _ => none

/-- The synthesized one-second idle fallback of `extract_json`. -/
def idleFallback : Json :=
  Json.obj [("actions", Json.arr [Json.obj [("type", Json.str ("idle")), ("seconds", Json.num 1)]])]

/-- `interolog.extract_json`: parse the raw completion; on failure parse the
first brace-delimited substring; on total failure return the idle fallback. -/
def extract_json (text : String) : Json :=
  match parseJson text with
  | some v => v
  | none =>
    match braceSpan text with
    | none => idleFallback
    | some sub =>
      match parseJson sub with
      | some v => v
      | none => idleFallback

/-- The eleven-variant tagged action union of `models/actions.py`
(`InjectAction` … `UserReplyAction`).  `seconds` fields are `float` in the
source and are modelled as rationals; `args` is a JSON object. -/
inductive ActionType where
  | inject (content : String)
  | spawn (role : String) (goal : String)
  | stop_self
  | stop_child (id : String)
  | sleep (seconds : Rat)
  | idle (seconds : Rat)
  | tool (name : String) (args : List (String × Json))
  | report_status
  | route_message (toId : String) (content : String)
  | ask_user (id : String) (content : String) (choices : Option (List String))
  | user_reply (in_reply_to : String) (content : String)

/-- The discriminator value of an action (`ActionName.<X>.value`). -/
def ActionType.tag : ActionType → String
  | .inject _ => "inject"
  | .spawn _ _ => "spawn"
  | .stop_self => "stop_self"
  | .stop_child _ => "stop_child"
  | .sleep _ => "sleep"
  | .idle _ => "idle"
  | .tool _ _ => "tool"
  | .report_status => "report_status"
  | .route_message _ _ => "route_message"
  | .ask_user _ _ _ => "ask_user"
  | .user_reply _ _ => "user_reply"

/-- A required `str` field (Pydantic does not coerce non-strings). -/
def jstrField (kvs : List (String × Json)) (k : String) : Option String :=
  match dget kvs k with
  | some (Json.str s) => some s
  | _ => none

/-- A required `float` field (JSON numbers; string/bool coercion is outside
the shapes the controller emits and is not modelled). -/
def jnumField (kvs : List (String × Json)) (k : String) : Option Rat :=
  match dget kvs k with
  | some (Json.num q) => some q
  | _ => none

/-- The optional `choices: Optional[List[str]]` field of `AskUserAction`:
absent or `null` validates to `None`; a list must contain only strings. -/
def choicesField (kvs : List (String × Json)) : Option (Option (List String)) :=
  match dget kvs ("choices") with
  | none => some none
  | some Json.null => some none
  | some (Json.arr l) =>
    (l.mapM (fun j => match j with | Json.str s => some s | _ => none)).map some
  | some _ => none

/-- The `args: Dict[str, Any]` field of `ToolAction` (absent defaults to
the empty dict; anything but a JSON object is invalid). -/
def argsField (kvs : List (String × Json)) : Option (List (String × Json)) :=
  match dget kvs ("args") with
  | none => some []
  | some (Json.obj f) => some f
  | some _ => none

/-- Validation of one raw entry against the discriminated union
(`_ACTION_ADAPTER.validate_python([a])`): the entry must be an object, its
`type` tag must be one of the eleven literals, and the variant's required
fields must validate; extra keys are ignored.  `none` models a
`ValidationError`. -/
def validateAction (j : Json) : Option ActionType :=
  match j with
  | Json.obj kvs =>
    match dget kvs ("type") with
    | some (Json.str t) =>
      if t = "inject" then (jstrField kvs ("content")).map ActionType.inject
      else if t = "spawn" then
        match jstrField kvs ("role"), jstrField kvs ("goal") with
        | some r, some g => some (ActionType.spawn r g)
        | _, _ => none
      else if t = "stop_self" then some ActionType.stop_self
      else if t = "stop_child" then (jstrField kvs ("id")).map ActionType.stop_child
      else if t = "sleep" then (jnumField kvs ("seconds")).map ActionType.sleep
      else if t = "idle" then (jnumField kvs ("seconds")).map ActionType.idle
      else if t = "tool" then
        match jstrField kvs ("name"), argsField kvs with
        | some n, some a => some (ActionType.tool n a)
        | _, _ => none
      else if t = "report_status" then some ActionType.report_status
      else if t = "route_message" then
        match jstrField kvs ("to"), jstrField kvs ("content") with
        | some toId, some c => some (ActionType.route_message toId c)
        | _, _ => none
      else if t = "ask_user" then
        match jstrField kvs ("id"), jstrField kvs ("content"), choicesField kvs with
        | some i, some c, some ch => some (ActionType.ask_user i c ch)
        | _, _, _ => none
      else if t = "user_reply" then
        match jstrField kvs ("in_reply_to"), jstrField kvs ("content") with
        | some i, some c => some (ActionType.user_reply i c)
        | _, _ => none
      else none
    | _ => none
  | _ => none

/-- All-or-nothing validation of the raw list, the first phase of
`parse_actions` (`_ACTION_ADAPTER.validate_python(actions)`). -/
def seqValidate : List Json → Option (List ActionType)
  | [] => some []
  | j :: t =>
    match validateAction j, seqValidate t with
    | some a, some r => some (a :: r)
    | _, _ => none

/-- `models.actions.parse_actions`: first validate the whole list; if that
raises, re-validate entry by entry, skipping invalid entries. -/
def parse_actions (actions : List Json) : List ActionType :=
  match seqValidate actions with
  | some acts => acts
  | none => actions.filterMap validateAction

/-- ASCII whitespace as removed by Python `str.strip()`. -/
def isPyWs (c : Char) : Bool :=
  c = (' ') ∨ c.toNat = 9 ∨ c.toNat = 10 ∨ c.toNat = 13 ∨ c.toNat = 11 ∨ c.toNat = 12

/-- Python `str.strip()` (ASCII whitespace). -/
def pyStrip (s : String) : String :=
  String.mk (((s.data.dropWhile isPyWs).reverse.dropWhile isPyWs).reverse)

/-- `models.state.MonologueStateModel` (timestamps as a monotone `Nat`). -/
structure ActorState where
  id : String
  role : String
  goal : String
  parent_id : Option String := none
  step : Nat := 0
  running : Bool := true
  created : Nat := 0
  last_action : String := ""
  inbox_size : Nat := 0
  tool_calls : Nat := 0
  last_error : String := ""
deriving DecidableEq

/-- `interolog.Monologue`: own state, immortality and drive-mode flags,
child-id set (as an insertion-ordered list), FIFO mailbox, and the bounded
recent-activity buffer. -/
structure Actor where
  state : ActorState
  immortal : Bool := false
  use_llm : Bool := true
  children : List String := []
  inbox : List String := []
  context_buffer : List String := []
deriving DecidableEq

/-- `models.injections.InjectionModel` (the timestamp field is irrelevant
to every claim and omitted). -/
structure Injection where
  from_id : String
  content : String
deriving DecidableEq

/-- A message payload routed by `route_incoming` / resolved into a pending
future (the dict keys the source reads: `from_id`, `reply_to`,
`request_id`, `content`). -/
structure Payload where
  from_id : Option String := none
  reply_to : Option String := none
  request_id : Option String := none
  content : Option String := none
deriving DecidableEq

/-- An `asyncio.Future` held in `_pending_replies`: only its done flag is
observable to the resolution logic. -/
structure Fut where
  done : Bool := false
deriving DecidableEq

/-- Externally observable events: `fut.set_result(payload)` on a pending
correlation future, and a question surfaced via `comms_show_question`. -/
inductive Event where
  | resolved (rid : String) (p : Payload)
  | asked (cid : String) (question : String) (choices : List String)
deriving DecidableEq

/-- A tool handler: the coroutine-function flag checked by `_ensure_async`
and the (pure model of the) underlying callable. -/
structure ToolHandler where
  isAsync : Bool
  fn : List (String × Json) → Json

/-- The Pydantic schema model of a tool: validation of keyword arguments,
returning the validated/dumped payload or a `ValidationError` message. -/
structure ToolModel where
  validate : List (String × Json) → Except String (List (String × Json))

/-- One registered tool (the source keeps `_tools` / `_models` / `_meta`
as three parallel dicts updated together under the same key; they are
merged into one entry here). -/
structure ToolEntry where
  handler : ToolHandler
  model : ToolModel
  description : String
  instructions : String

/-- `tool_registry.ToolRegistry` state. -/
structure ToolRegistryState where
  tools : List (String × ToolEntry)

/-- A Python value passed as the `name` argument of `register` (the source
checks `isinstance(name, str)`). -/
inductive PyName where
  | strv (s : String)
  | nonStr
deriving DecidableEq

/-- `ToolRegistry._ensure_async`: a coroutine function is returned as-is;
a plain callable is wrapped in an async adapter that forwards the call and
returns its (possibly awaited) result unchanged. -/
def ensureAsync (h : ToolHandler) : ToolHandler :=
  if h.isAsync then h else { isAsync := true, fn := h.fn }

/-- `ToolRegistry.register`.  An `Except.error` models a raised
`ToolError` with that message. -/
def registerTool (tr : ToolRegistryState) (name : PyName) (fn : ToolHandler)
    (model : Option ToolModel) (description : String) (instructions : String) :
    Except String ToolRegistryState :=
  match name with
  | PyName.nonStr => Except.error ("Tool name must be non-empty str")
  | PyName.strv n =>
    if n = "" then Except.error ("Tool name must be non-empty str")
    else
      match dget tr.tools n with
      | some _ => Except.error ("Tool already registered: " ++ n)
      | none =>
        match model with
        | none => Except.error ("Tool must declare a Pydantic BaseModel via model=")
        | some m =>
          Except.ok
            { tools :=
                dinsert tr.tools n
                  { handler := ensureAsync fn, model := m,
                    description := pyStrip description, instructions := pyStrip instructions } }

/-- `ToolRegistry.call`: look up handler and schema (`ToolError` if
unknown), validate the kwargs (`ToolError` on `ValidationError`), then
invoke the (async-lifted) handler and return its raw result. -/
def callTool (tr : ToolRegistryState) (name : String) (kwargs : List (String × Json)) :
    Except String Json :=
  match dget tr.tools name with
  | none => Except.error ("Unknown tool: " ++ name)
  | some e =>
    match e.model.validate kwargs with
    | Except.error msg => Except.error ("Validation failed for " ++ name ++ ": " ++ msg)
    | Except.ok payload => Except.ok (e.handler.fn payload)

/-- `interolog.Orchestrator` state: registry, Main/Comms ids, Main's
injection queue, correlation futures, wake events, the shared tool
registry, configuration, the transient current-actor context, and a clock
supplying creation timestamps. -/
structure Orch where
  actors : List (String × Actor) := []
  main_id : Option String := none
  comms_id : Option String := none
  main_inbox : List Injection := []
  pending : List (String × Fut) := []
  sleep_events : List (String × Bool) := []
  tools : ToolRegistryState := { tools := [] }
  max_sub_steps : Nat := 12
  max_children : Nat := 16
  current_actor : Option String := none
  clock : Nat := 0

/-- Mutation of one registry entry in place (`self._actors[k].x = ...`). -/
def updActor (o : Orch) (k : String) (f : Actor → Actor) : Orch :=
  { o with actors := dupd o.actors k f }

/-- Soft-stop / restart flag assignment on one actor. -/
def setRunning (o : Orch) (k : String) (b : Bool) : Orch :=
  updActor o k (fun a => { a with state := { a.state with running := b } })

/-- FIFO enqueue into one actor's mailbox (`actor.inbox.put(line)`). -/
def pushInbox (o : Orch) (k : String) (line : String) : Orch :=
  updActor o k (fun a => { a with inbox := a.inbox ++ [line] })

/-- `Monologue._remember`: strip, drop empties, append, keep the last 50. -/
def rememberA (a : Actor) (entry : String) : Actor :=
  let e := pyStrip entry
  if e = "" then a
  else
    let cb := a.context_buffer ++ [e]
    { a with context_buffer := if 50 < cb.length then cb.drop (cb.length - 50) else cb }

def remember (o : Orch) (k : String) (entry : String) : Orch :=
  updActor o k (fun a => rememberA a entry)

/-- `Orchestrator.role_of`, applied to the (possibly absent) caller id:
Python compares with `==`, so `None == None` when Main is unset also
yields `"main"`. -/
def roleOf (o : Orch) (aid : Option String) : String :=
  if aid = o.main_id then "main"
  else if aid = o.comms_id then "comms"
  else "sub"

/-- `Orchestrator.inject_to_main`: enqueue onto the Main injection sink. -/
def injectToMain (o : Orch) (inj : Injection) : Orch :=
  { o with main_inbox := o.main_inbox ++ [inj] }

/-- `Orchestrator.notify_actor_message`: set the target's wake event. -/
def notifyActorMessage (o : Orch) (target_id : String) : Orch :=
  { o with sleep_events := dinsert o.sleep_events target_id true }

/-- `Orchestrator.stop_child`: soft-stop a known non-immortal actor. -/
def stopChild (o : Orch) (actor_id : String) : Orch :=
  match dget o.actors actor_id with
  | some a => if a.immortal then o else setRunning o actor_id false
  | none => o

/-- First entry with minimal creation timestamp among a registry slice —
`sorted(subs, key=lambda a: a.state.created)[0]` (stable sort). -/
def oldestEntry : List (String × Actor) → Option (String × Actor)
  | [] => none
  | (k, a) :: t =>
    match oldestEntry t with
    | none => some (k, a)
    | some (k', a') =>
      if a.state.created ≤ a'.state.created then some (k, a) else some (k', a')

def mkActorState (id role goal : String) (parent : Option String) (created : Nat) :
    ActorState :=
  { id := id, role := role, goal := goal, parent_id := parent, created := created }

/-- `Orchestrator._spawn`: for a non-immortal spawn, when the count of
non-immortal registry entries has reached `max_children`, soft-stop the
oldest such entry (with an empty slice Python raises `IndexError` from
`sorted(subs)[0]` — the `Except.error` branch); then insert the new actor.
The fresh `uuid` hex id is supplied by the caller. -/
def spawnExec (o : Orch) (role goal : String) (parent : Option String)
    (immortal llm : Bool) (newId : String) : Except String Orch :=
  let evicted : Except String Orch :=
    if immortal then Except.ok o
    else
      let subs := o.actors.filter (fun kv => kv.2.immortal = false)
      if o.max_children ≤ subs.length then
        match oldestEntry subs with
        | some e => Except.ok (setRunning o e.1 false)
        | none => Except.error ("list index out of range")
      else Except.ok o
  match evicted with
  | Except.error e => Except.error e
  | Except.ok o2 =>
    let actor : Actor :=
      { state := mkActorState newId role goal parent o2.clock,
        immortal := immortal, use_llm := llm }
    Except.ok { o2 with actors := dinsert o2.actors newId actor, clock := o2.clock + 1 }

/-- Result value of `kill_with_policy`. -/
structure KillResult where
  ok : Bool
  error : Option String := none
  killed : Option String := none
deriving DecidableEq

/-- Dictionary lookup through a possibly-`None` key (`d.get(tid)` where
`tid: str | None`). -/
def dgetO {α : Type} (l : List (String × α)) : Option String → Option α
  | some k => dget l k
  | none => none

/-- The caller identity resolved by `kill_with_policy`:
`getattr(caller.state, "id", None) if caller else self._main_id`. -/
def killCallerId (o : Orch) : Option String :=
  match o.current_actor with
  | some c => some c
  | none => o.main_id

/-- The effective target of `kill_with_policy`:
`tid = target_id or caller_id` (Python falsiness). -/
def killTarget (o : Orch) (target_id : Option String) : Option String :=
  match target_id with
  | some t => if t = "" then killCallerId o else some t
  | none => killCallerId o

/-- `Orchestrator.kill_with_policy`: caller identity from the transient
current-actor context (defaulting to Main), sub-role callers may only
target themselves, the Comms id is untouchable, unknown ids are errors,
otherwise the target is soft-stopped. -/
def kill_with_policy (o : Orch) (target_id : Option String) : Orch × KillResult :=
  let caller_id := killCallerId o
  let caller_role := roleOf o caller_id
  let tid := killTarget o target_id
  if caller_role = "sub" ∧ tid ≠ caller_id then
    (o, { ok := false, error := some ("sub may only kill self") })
  else if tid = o.comms_id then
    (o, { ok := false, error := some ("cannot kill Communication") })
  else
    match tid, dgetO o.actors tid with
    | some t, some _ => (setRunning o t false, { ok := true, killed := some t })
    | _, _ => (o, { ok := false, error := some ("unknown id") })

/-- Python truthiness of an optional string. -/
def truthyS : Option String → Bool
  | some s => s ≠ ""
  | none => false

/-- Python `str(x)` applied to a possibly-`None` value. -/
def optStr : Option String → String
  | some s => s
  | none => "None"

/-- The reply-resolution prefix of `route_incoming`: a truthy `reply_to`
pops the pending future and resolves it if not already done. -/
def resolveStep (o : Orch) (p : Payload) : Orch × List Event :=
  match p.reply_to with
  | some rid =>
    if rid = "" then (o, [])
    else
      let r := dpop o.pending rid
      match r.1 with
      | some fut =>
        let o2 := { o with pending := r.2 }
        if fut.done then (o2, []) else (o2, [Event.resolved rid p])
      | none => (o, [])
  | none => (o, [])

/-- The human-readable mailbox line built by `route_incoming`. -/
def formatLine (p : Payload) : String :=
  if truthyS p.request_id then
    "[from:" ++ optStr p.from_id ++ " req:" ++ optStr p.request_id ++ "] " ++ p.content.getD ""
  else if truthyS p.reply_to then
    "[from:" ++ optStr p.from_id ++ " reply_to:" ++ optStr p.reply_to ++ "] " ++ p.content.getD ""
  else p.content.getD ""

/-- Outcome of an orchestrator call that can raise after partial mutation:
the state as mutated so far, emitted events, and the `str(e)` of an
escaping exception (if any). -/
structure RouteRes where
  st : Orch
  events : List Event
  err : Option String

/-- `Orchestrator.route_incoming`: resolve a matching pending future, then
enqueue the readable line into the target mailbox and signal its wake
event; an unknown target raises `KeyError` (whose `str` is the quoted
key) after the resolution already happened. -/
def route_incoming (o : Orch) (target_id : String) (p : Payload) : RouteRes :=
  let r := resolveStep o p
  let line := formatLine p
  match dget r.1.actors target_id with
  | none => { st := r.1, events := r.2, err := some ("'" ++ target_id ++ "'") }
  | some _ =>
    { st := notifyActorMessage (pushInbox r.1 target_id line) target_id,
      events := r.2, err := none }

/-- The payload `on_user_message` resolves an ask with. -/
def userPayload (cid text : String) : Payload :=
  { from_id := some ("user"), reply_to := some cid, content := some text }

/-- The non-correlated branch of `on_user_message`: forward the raw text
to Main's mailbox and wake it (no-op when Main is not registered). -/
def onUserFallback (o : Orch) (text : String) : Orch × List Event :=
  match o.main_id with
  | some m =>
    if (dget o.actors m).isSome then
      (notifyActorMessage (pushInbox o m ("[USER] " ++ text)) m, [])
    else (o, [])
  | none => (o, [])

/-- The audit line appended to Main's mailbox after an ask is resolved
(`if self._main_id in self._actors: await ...inbox.put(...)`). -/
def pushMainAudit (o : Orch) (line : String) : Orch :=
  match o.main_id with
  | some m => if (dget o.actors m).isSome then pushInbox o m line else o
  | none => o

/-- `Orchestrator.on_user_message`: a truthy correlation id with a pending
future consumes it (resolving if not done) and appends an audit line to
Main's mailbox; otherwise the text is forwarded to Main. -/
def on_user_message (o : Orch) (text : String) (correlation_id : Option String) :
    Orch × List Event :=
  match correlation_id with
  | some c =>
    if c = "" then onUserFallback o text
    else
      let r := dpop o.pending c
      match r.1 with
      | some fut =>
        let o2 : Orch := { o with pending := r.2 }
        let evs := if fut.done then [] else [Event.resolved c (userPayload c text)]
        (pushMainAudit o2 ("[USER replied cid:" ++ c ++ "] " ++ text), evs)
      | none => onUserFallback o text
  | none => onUserFallback o text

/-- `Orchestrator.comms_show_question`: surface a question (dashboard
callback or console print) — observable as an event. -/
def commsShowQuestion (o : Orch) (cid question : String) (choices : List String) :
    Orch × List Event :=
  (o, [Event.asked cid question choices])

/-- String-literal serialization of `json.dumps` (quote and backslash
escaped; other escapes and `ensure_ascii` are irrelevant to the claims
and not modelled). -/
def jstrEsc (s : String) : String :=
  String.mk (s.data.foldr
    (fun c acc => if c = dquote ∨ c = bslash then bslash :: c :: acc else c :: acc) [])

def jstrDump (s : String) : String :=
  String.mk [dquote] ++ jstrEsc s ++ String.mk [dquote]

mutual

/-- `json.dumps` with the default separators. -/
def jdump : Json → String
  | Json.null => "null"
  | Json.bool b => if b then "true" else "false"
  | Json.num q =>
    if q.den = 1 then toString q.num else toString q.num ++ "/" ++ toString q.den
  | Json.str s => jstrDump s
  | Json.arr l => "[" ++ jdumpItems l ++ "]"
  | Json.obj kvs => String.mk [lbrace] ++ jdumpFields kvs ++ String.mk [rbrace]

def jdumpItems : List Json → String
  | [] => ""
  | [x] => jdump x
  | x :: y :: t => jdump x ++ ", " ++ jdumpItems (y :: t)

def jdumpFields : List (String × Json) → String
  | [] => ""
  | [(k, v)] => jstrDump k ++ ": " ++ jdump v
  | (k, v) :: kv2 :: t => jstrDump k ++ ": " ++ jdump v ++ ", " ++ jdumpFields (kv2 :: t)

end

/-- Rendering of a `seconds` value inside an f-string (`1.0`-style for
integral floats; exact rendering is irrelevant to every claim). -/
def ratStr (q : Rat) : String :=
  if q.den = 1 then toString q.num ++ ".0"
  else toString q.num ++ "/" ++ toString q.den

/-- Python `set.add` on the child-id set (insertion-ordered model). -/
def childAdd (l : List String) (x : String) : List String :=
  if x ∈ l then l else l ++ [x]

/-- Result of attempting one handler layer on one action: the (possibly
partially) mutated state, the remaining fresh-id supply, emitted events,
the `str(e)` of a raised-and-not-yet-caught exception, and whether the
layer recognized the action. -/
structure HRes where
  st : Orch
  supply : List String
  events : List Event
  err : Option String
  handled : Bool

/-- Increment of `state.tool_calls` on the acting actor. -/
def bumpToolCalls (o : Orch) (aid : String) : Orch :=
  updActor o aid (fun a => { a with state := { a.state with tool_calls := a.state.tool_calls + 1 } })

/-- `Monologue._run_tool` after a successful `registry.call`: count the
call, truncate the serialized result to 500 characters, enqueue it into
the actor's own mailbox. -/
def runToolOk (o : Orch) (aid : String) (name : String) (result : Json) : Orch :=
  let o1 := bumpToolCalls o aid
  let payload := jdump result
  let snippet :=
    if payload.length ≤ 500 then payload else String.mk (payload.data.take 497) ++ "..."
  remember (pushInbox o1 aid ("[tool " ++ name ++ "] " ++ snippet)) aid ("tool:" ++ name)

/-- `Monologue._handle_builtin_action` (the protocol layer): recognizes
every variant of the action union; effects and in-handler exceptions are
as in the source.  A `spawn` consumes a fresh id from the supply. -/
def handleBuiltin (o : Orch) (aid : String) (act : ActionType) (supply : List String) : HRes :=
  match act with
  | ActionType.inject content =>
    let o1 := injectToMain o { from_id := aid, content := content }
    { st := remember o1 aid ("inject:" ++ content), supply := supply,
      events := [], err := none, handled := true }
  | ActionType.spawn role goal =>
    let newId := supply.headD ""
    match spawnExec o role goal (some aid) false true newId with
    | Except.error e =>
      { st := o, supply := supply.tail, events := [], err := some e, handled := true }
    | Except.ok o1 =>
      let o2 := updActor o1 aid (fun a => { a with children := childAdd a.children newId })
      { st := remember o2 aid ("spawn:" ++ newId ++ ":" ++ role), supply := supply.tail,
        events := [], err := none, handled := true }
  | ActionType.stop_self =>
    { st := remember (setRunning o aid false) aid ("stop_self"), supply := supply,
      events := [], err := none, handled := true }
  | ActionType.stop_child cid =>
    let o1 := stopChild o cid
    let o2 := updActor o1 aid (fun a => { a with children := a.children.erase cid })
    { st := remember o2 aid ("stop_child:" ++ cid), supply := supply,
      events := [], err := none, handled := true }
  | ActionType.sleep s =>
    let o1 := if s ≤ 0 then o else { o with sleep_events := dinsert o.sleep_events aid false }
    { st := remember o1 aid ("sleep:" ++ ratStr s), supply := supply,
      events := [], err := none, handled := true }
  | ActionType.idle s =>
    { st := remember o aid ("idle:" ++ ratStr s), supply := supply,
      events := [], err := none, handled := true }
  | ActionType.tool name args =>
    match callTool o.tools name args with
    | Except.error e =>
      { st := o, supply := supply, events := [], err := some e, handled := true }
    | Except.ok result =>
      { st := runToolOk o aid name result, supply := supply,
        events := [], err := none, handled := true }
  | ActionType.report_status =>
    match dget o.actors aid with
    | some a =>
      let summary :=
        jdump (Json.obj
          [("id", Json.str aid), ("role", Json.str a.state.role),
           ("step", Json.num (a.state.step : Rat)),
           ("children", Json.arr (a.children.map Json.str))])
      { st := remember (pushInbox o aid ("[status] " ++ summary)) aid ("report_status"),
        supply := supply, events := [], err := none, handled := true }
    | none =>
      { st := o, supply := supply, events := [], err := none, handled := true }
  | ActionType.route_message toId content =>
    let p : Payload := { from_id := some aid, content := some content }
    let r := route_incoming o toId p
    match r.err with
    | some e =>
      { st := r.st, supply := supply, events := r.events, err := some e, handled := true }
    | none =>
      { st := remember r.st aid ("route:" ++ toId), supply := supply,
        events := r.events, err := none, handled := true }
  | ActionType.ask_user qid content choices =>
    let r := commsShowQuestion o qid content (choices.getD [])
    { st := remember r.1 aid ("ask_user:" ++ qid), supply := supply,
      events := r.2, err := none, handled := true }
  | ActionType.user_reply in_reply_to content =>
    let r := on_user_message o content (some in_reply_to)
    { st := remember r.1 aid ("user_reply:" ++ in_reply_to), supply := supply,
      events := r.2, err := none, handled := true }

/-- The tags registered in `action_registry.ACTION_HANDLERS`. -/
def ACTION_HANDLER_TAGS : List String :=
  ["open_monologue", "ask_user", "sleep", "message_monologue", "list_monologue", "kill_monologue"]

/-- The capability-layer fallback of `_dispatch_actions`.  For protocol
actions this is dead code — the protocol layer recognizes all eleven
variants — and only `ask_user` and `sleep` of the eleven tags are even
registered; were one of those reached, `_handle_ask_user` / `_handle_sleep`
would read fields absent from the protocol-layer models and raise
`AttributeError`.  Tags unknown to both layers are skipped silently. -/
def capFallback (o : Orch) (_aid : String) (act : ActionType) (supply : List String) : HRes :=
  if ActionType.tag act ∈ ACTION_HANDLER_TAGS then
    { st := o, supply := supply, events := [], err := some ("AttributeError"), handled := true }
  else
    { st := o, supply := supply, events := [], err := none, handled := false }

/-- Assignment of `last_action` / `last_error` on the acting actor. -/
def setFlags (o : Orch) (aid : String) (tagv : String) (errv : String) : Orch :=
  updActor o aid
    (fun a => { a with state := { a.state with last_action := tagv, last_error := errv } })

/-- Assignment of `last_error` alone. -/
def setLastErr (o : Orch) (aid : String) (errv : String) : Orch :=
  updActor o aid (fun a => { a with state := { a.state with last_error := errv } })

/-- Result of dispatching: final state, remaining id supply, events. -/
structure DRes where
  st : Orch
  supply : List String
  events : List Event

/-- One iteration of the `for act in actions` loop of
`Monologue._dispatch_actions`: set `last_action` to the tag and clear
`last_error`, set the current-actor context, try the protocol layer, fall
back to the capability layer only if it declined, record a raised
exception in `last_error` and the activity log, and always clear the
current-actor context. -/
def dispatchOne (o : Orch) (aid : String) (act : ActionType) (supply : List String) : DRes :=
  let tagv := ActionType.tag act
  let o1 := setFlags o aid tagv ""
  let o2 : Orch := { o1 with current_actor := some aid }
  let r := handleBuiltin o2 aid act supply
  let r2 :=
    if r.handled then r
    else
      let c := capFallback r.st aid act r.supply
      if c.handled then
        match c.err with
        | none => { c with st := remember c.st aid ("handled:" ++ tagv) }
        | some _ => c
      else c
  let o3 :=
    match r2.err with
    | none => r2.st
    | some e => remember (setLastErr r2.st aid e) aid ("error:" ++ tagv ++ ":" ++ e)
  { st := { o3 with current_actor := none }, supply := r2.supply, events := r2.events }

def dispatchGo : Orch → String → List ActionType → List String → DRes
  | o, _, [], supply => { st := o, supply := supply, events := [] }
  | o, aid, act :: rest, supply =>
    let r := dispatchOne o aid act supply
    let r2 := dispatchGo r.st aid rest r.supply
    { st := r2.st, supply := r2.supply, events := r.events ++ r2.events }

/-- `Monologue._dispatch_actions`: an empty list clears both flags;
otherwise the actions are dispatched in order, and a handler exception
never escapes (it is recorded and dispatch continues). -/
def dispatchActions (o : Orch) (aid : String) (acts : List ActionType) (supply : List String) :
    DRes :=
  if acts.isEmpty then { st := setFlags o aid "" "", supply := supply, events := [] }
  else dispatchGo o aid acts supply

/-- The `actions` value drained from the extracted completion object:
`data.get("actions", [])` raises `AttributeError` on a non-dict, and the
subsequent per-entry fallback of `parse_actions` iterates it — strings
yield their characters, dicts their keys, scalars raise `TypeError`. -/
def actionsIter (data : Json) : Except String (List Json) :=
  match data with
  | Json.obj kvs =>
    match dget kvs ("actions") with
    | none => Except.ok []
    | some (Json.arr l) => Except.ok l
    | some (Json.str s) => Except.ok (s.data.map (fun c => Json.str (String.mk [c])))
    | some (Json.obj f) => Except.ok (f.map (fun kv => Json.str kv.1))
    | some _ => Except.error ("TypeError")
  | _ => Except.error ("AttributeError")

/-- The parse phase of one model-driven loop iteration:
`extract_json(raw)` then `parse_actions(data.get("actions", []))`. -/
def parsePhase (raw : String) : Except String (List ActionType) :=
  match actionsIter (extract_json raw) with
  | Except.error e => Except.error e
  | Except.ok items => Except.ok (parse_actions items)

/-- The mailbox-draining side effects of `Monologue._build_prompt`. -/
def buildPromptEffects (o : Orch) (aid : String) : Orch :=
  updActor o aid (fun a =>
    let msgs := a.inbox
    let a2 := msgs.foldl (fun acc m => rememberA acc ("inbox:" ++ m)) a
    { a2 with inbox := [], state := { a2.state with inbox_size := msgs.length } })

/-- The non-model-driven (Comms) loop body: drain the mailbox and forward
every message to the Main injection sink. -/
def forwardBody (o : Orch) (aid : String) : Orch :=
  match dget o.actors aid with
  | none => o
  | some a =>
    let msgs := a.inbox
    let o1 := updActor o aid (fun a2 => { a2 with inbox := [] })
    let o2 := msgs.foldl
      (fun acc m =>
        remember (injectToMain acc { from_id := aid, content := "[user] " ++ m })
          aid ("forwarded:" ++ m))
      o1
    { o2 with current_actor := none }

structure IterRes where
  st : Orch
  supply : List String
  events : List Event
  err : Option String

/-- One body of the `while` loop of `Monologue.run` (raw completion text
supplied externally).  A parse-phase exception escapes the body: only
`CancelledError` is caught by the loop. -/
def iterBody (o : Orch) (aid : String) (raw : String) (supply : List String) : IterRes :=
  match dget o.actors aid with
  | none => { st := o, supply := supply, events := [], err := none }
  | some a =>
    if a.use_llm then
      let o1 := buildPromptEffects o aid
      match parsePhase raw with
      | Except.error e => { st := o1, supply := supply, events := [], err := some e }
      | Except.ok acts =>
        let r := dispatchActions o1 aid acts supply
        { st := r.st, supply := r.supply, events := r.events, err := none }
    else
      { st := forwardBody o aid, supply := supply, events := [], err := none }

/-- The `finally` block of `Monologue.run`: non-immortal actors are forced
non-running on every exit path. -/
def finalizeRun (o : Orch) (aid : String) : Orch :=
  match dget o.actors aid with
  | some a => if a.immortal then o else setRunning o aid false
  | none => o

/-- `self.state.step += 1` at the end of a loop iteration. -/
def bumpStep (o : Orch) (aid : String) : Orch :=
  updActor o aid (fun a => { a with state := { a.state with step := a.state.step + 1 } })

/-- `Monologue.run`: loop while `running` and (immortal or under the step
budget); one completion string and a shared fresh-id supply are consumed
per iteration; fuel `0` models cancellation (`CancelledError` at a
suspension point), and every exit path runs the `finally` cleanup. -/
def runActor : Nat → Orch → String → List String → List String → Orch
  | 0, o, aid, _, _ => finalizeRun o aid
  | Nat.succ fuel, o, aid, raws, supply =>
    match dget o.actors aid with
    | none => finalizeRun o aid
    | some a =>
      if a.state.running ∧ (a.immortal ∨ a.state.step < o.max_sub_steps) then
        let r := iterBody o aid (raws.headD "") supply
        match r.err with
        | some _ => finalizeRun r.st aid
        | none => runActor fuel (bumpStep r.st aid) aid raws.tail r.supply
      else finalizeRun o aid

/-! ### Dictionary lemmas -/

theorem dget_cons {α : Type} (k0 k : String) (v0 : α) (t : List (String × α)) :
    dget ((k0, v0) :: t) k = if k0 = k then some v0 else dget t k := rfl

theorem dinsert_cons {α : Type} (k0 k : String) (v0 v : α) (t : List (String × α)) :
    dinsert ((k0, v0) :: t) k v =
      if k0 = k then (k0, v) :: t else (k0, v0) :: dinsert t k v := rfl

theorem dpop_cons {α : Type} (k0 k : String) (v0 : α) (t : List (String × α)) :
    dpop ((k0, v0) :: t) k =
      if k0 = k then (some v0, t) else ((dpop t k).1, (k0, v0) :: (dpop t k).2) := rfl

theorem dupd_cons {α : Type} (k0 k : String) (v0 : α) (t : List (String × α)) (f : α → α) :
    dupd ((k0, v0) :: t) k f =
      (if k0 = k then (k0, f v0) else (k0, v0)) :: dupd t k f := by
  by_cases h0 : k0 = k
  · simp only [dupd, List.map_cons, if_pos h0]
  · simp only [dupd, List.map_cons, if_neg h0]

theorem dget_eq_none_of_not_mem {α : Type} {l : List (String × α)} {k : String}
    (h : k ∉ l.map Prod.fst) : dget l k = none := by
  induction l with
  | nil => rfl
  | cons kv t ih =>
    obtain ⟨k0, v0⟩ := kv
    simp only [List.map_cons, List.mem_cons, not_or] at h
    rw [dget_cons, if_neg (fun hk : k0 = k => h.1 hk.symm)]
    exact ih h.2

theorem dget_dupd {α : Type} (l : List (String × α)) (k k' : String) (f : α → α) :
    dget (dupd l k f) k' = if k' = k then (dget l k').map f else dget l k' := by
  induction l with
  | nil =>
    by_cases h : k' = k
    · rw [if_pos h]; rfl
    · rw [if_neg h]; rfl
  | cons kv t ih =>
    obtain ⟨k0, v0⟩ := kv
    rw [dupd_cons]
    by_cases h0 : k0 = k
    · rw [if_pos h0, dget_cons]
      by_cases h1 : k0 = k'
      · rw [if_pos h1, if_pos (h1.symm.trans h0), dget_cons, if_pos h1]
        rfl
      · rw [if_neg h1, ih, if_neg (fun hk : k' = k => h1 (h0.trans hk.symm)),
          if_neg (fun hk : k' = k => h1 (h0.trans hk.symm)), dget_cons, if_neg h1]
    · rw [if_neg h0, dget_cons]
      by_cases h1 : k0 = k'
      · rw [if_pos h1, if_neg (fun hk : k' = k => h0 (h1.trans hk)), dget_cons, if_pos h1]
      · rw [if_neg h1, ih]
        by_cases h2 : k' = k
        · rw [if_pos h2, if_pos h2, dget_cons, if_neg h1]
        · rw [if_neg h2, if_neg h2, dget_cons, if_neg h1]

theorem dget_dinsert {α : Type} (l : List (String × α)) (k k' : String) (v : α) :
    dget (dinsert l k v) k' = if k' = k then some v else dget l k' := by
  induction l with
  | nil =>
    show (if k = k' then some v else none) = if k' = k then some v else dget [] k'
    by_cases h : k = k'
    · rw [if_pos h, if_pos h.symm]
    · rw [if_neg h, if_neg (fun hk : k' = k => h hk.symm)]
      rfl
  | cons kv t ih =>
    obtain ⟨k0, v0⟩ := kv
    rw [dinsert_cons]
    by_cases h0 : k0 = k
    · rw [if_pos h0, dget_cons]
      by_cases h1 : k0 = k'
      · rw [if_pos h1, if_pos (h1.symm.trans h0)]
      · rw [if_neg h1, if_neg (fun hk : k' = k => h1 (h0.trans hk.symm)), dget_cons, if_neg h1]
    · rw [if_neg h0, dget_cons]
      by_cases h1 : k0 = k'
      · rw [if_pos h1, if_neg (fun hk : k' = k => h0 (h1.trans hk)), dget_cons, if_pos h1]
      · rw [if_neg h1, ih]
        by_cases h2 : k' = k
        · rw [if_pos h2, if_pos h2]
        · rw [if_neg h2, if_neg h2, dget_cons, if_neg h1]

theorem dpop_fst {α : Type} (l : List (String × α)) (k : String) :
    (dpop l k).1 = dget l k := by
  induction l with
  | nil => rfl
  | cons kv t ih =>
    obtain ⟨k0, v0⟩ := kv
    rw [dpop_cons, dget_cons]
    by_cases h0 : k0 = k
    · rw [if_pos h0, if_pos h0]
    · rw [if_neg h0, if_neg h0]
      exact ih

theorem dget_dpop_self {α : Type} {l : List (String × α)} (k : String)
    (h : (l.map Prod.fst).Nodup) : dget (dpop l k).2 k = none := by
  induction l with
  | nil => rfl
  | cons kv t ih =>
    obtain ⟨k0, v0⟩ := kv
    simp only [List.map_cons, List.nodup_cons] at h
    rw [dpop_cons]
    by_cases h0 : k0 = k
    · rw [if_pos h0]
      exact h0 ▸ dget_eq_none_of_not_mem h.1
    · rw [if_neg h0]
      show dget ((k0, v0) :: (dpop t k).2) k = none
      rw [dget_cons, if_neg h0]
      exact ih h.2

theorem dget_dpop_other {α : Type} (l : List (String × α)) (k k' : String)
    (h : k' ≠ k) : dget (dpop l k).2 k' = dget l k' := by
  induction l with
  | nil => rfl
  | cons kv t ih =>
    obtain ⟨k0, v0⟩ := kv
    rw [dpop_cons, dget_cons]
    by_cases h0 : k0 = k
    · rw [if_pos h0, if_neg (fun hk : k0 = k' => h (hk.symm.trans h0))]
    · rw [if_neg h0]
      show dget ((k0, v0) :: (dpop t k).2) k' = _
      rw [dget_cons]
      by_cases h1 : k0 = k'
      · rw [if_pos h1, if_pos h1]
      · rw [if_neg h1, if_neg h1]
        exact ih

/-! ### C5 — parse_actions on the canonical shapes -/

/-- The eleven canonical discriminator tags. -/
def canonicalTags : List String :=
  ["inject", "spawn", "stop_self", "stop_child", "sleep", "idle", "tool",
   "report_status", "route_message", "ask_user", "user_reply"]

theorem validateAction_unknown (kvs : List (String × Json)) (t : String)
    (hty : dget kvs ("type") = some (Json.str t)) (h : t ∉ canonicalTags) :
    validateAction (Json.obj kvs) = none := by
  simp only [canonicalTags, List.mem_cons, List.not_mem_nil, or_false, not_or] at h
  obtain ⟨h1, h2, h3, h4, h5, h6, h7, h8, h9, h10, h11⟩ := h
  simp [validateAction, hty, h1, h2, h3, h4, h5, h6, h7, h8, h9, h10, h11]

theorem seqValidate_eq_some {l : List Json} {r : List ActionType}
    (h : seqValidate l = some r) : l.filterMap validateAction = r := by
  induction l generalizing r with
  | nil =>
    simp only [seqValidate, Option.some.injEq] at h
    simp [h]
  | cons j t ih =>
    simp only [seqValidate] at h
    cases hj : validateAction j <;> rw [hj] at h
    · exact absurd h (by simp)
    · cases ht : seqValidate t <;> rw [ht] at h
      · exact absurd h (by simp)
      · simp only [Option.some.injEq] at h
        simp [List.filterMap_cons, hj, ih ht, h]

theorem parse_actions_eq_filterMap (l : List Json) :
    parse_actions l = l.filterMap validateAction := by
  unfold parse_actions
  cases h : seqValidate l with
  | none => rfl
  | some r => exact (seqValidate_eq_some h).symm

/-- C5: `parse_actions` maps each of the eleven canonical action JSON
shapes (as listed in the controller's system prompt) to exactly the
corresponding typed action, and an entry whose `type` tag is unknown
validates to nothing and is omitted from the returned list rather than
raising an error. -/
theorem C5_parse_actions_canonical :
    (parse_actions [Json.obj [("type", Json.str ("inject")), ("content", Json.str ("m"))]]
       = [ActionType.inject "m"]) ∧
    (parse_actions [Json.obj [("type", Json.str ("spawn")), ("role", Json.str ("r")),
        ("goal", Json.str ("g"))]] = [ActionType.spawn "r" "g"]) ∧
    (parse_actions [Json.obj [("type", Json.str ("stop_self"))]] = [ActionType.stop_self]) ∧
    (parse_actions [Json.obj [("type", Json.str ("stop_child")), ("id", Json.str ("c1"))]]
       = [ActionType.stop_child "c1"]) ∧
    (parse_actions [Json.obj [("type", Json.str ("sleep")), ("seconds", Json.num 2)]]
       = [ActionType.sleep 2]) ∧
    (parse_actions [Json.obj [("type", Json.str ("idle")), ("seconds", Json.num 1)]]
       = [ActionType.idle 1]) ∧
    (parse_actions [Json.obj [("type", Json.str ("tool")), ("name", Json.str ("t")),
        ("args", Json.obj [])]] = [ActionType.tool "t" []]) ∧
    (parse_actions [Json.obj [("type", Json.str ("report_status"))]]
       = [ActionType.report_status]) ∧
    (parse_actions [Json.obj [("type", Json.str ("route_message")), ("to", Json.str ("a1")),
        ("content", Json.str ("hi"))]] = [ActionType.route_message "a1" "hi"]) ∧
    (parse_actions [Json.obj [("type", Json.str ("ask_user")), ("id", Json.str ("q1")),
        ("content", Json.str ("q")), ("choices", Json.arr [Json.str ("y"), Json.str ("n")])]]
       = [ActionType.ask_user "q1" "q" (some ["y", "n"])]) ∧
    (parse_actions [Json.obj [("type", Json.str ("user_reply")),
        ("in_reply_to", Json.str ("q1")), ("content", Json.str ("yes"))]]
       = [ActionType.user_reply "q1" "yes"]) ∧
    (∀ kvs t pre post, dget kvs ("type") = some (Json.str t) → t ∉ canonicalTags →
       validateAction (Json.obj kvs) = none ∧
       parse_actions (pre ++ Json.obj kvs :: post) = parse_actions (pre ++ post)) := by
  refine ⟨rfl, rfl, rfl, rfl, rfl, rfl, rfl, rfl, rfl, rfl, rfl, ?_⟩
  intro kvs t pre post hty hmem
  have hv := validateAction_unknown kvs t hty hmem
  refine ⟨hv, ?_⟩
  simp [parse_actions_eq_filterMap, List.filterMap_append, List.filterMap_cons, hv]

/-- Witness for C5 at a concrete unknown tag and a concrete list. -/
theorem C5_parse_actions_canonical_witness :
    dget [("type", Json.str ("open_monologue"))] ("type")
        = some (Json.str ("open_monologue")) ∧
    ("open_monologue" ∉ canonicalTags) ∧
    (validateAction (Json.obj [("type", Json.str ("open_monologue"))]) = none ∧
     parse_actions
        ([Json.obj [("type", Json.str ("stop_self"))]] ++
          Json.obj [("type", Json.str ("open_monologue"))] ::
            [Json.obj [("type", Json.str ("idle")), ("seconds", Json.num 1)]])
       = parse_actions
          ([Json.obj [("type", Json.str ("stop_self"))]] ++
            [Json.obj [("type", Json.str ("idle")), ("seconds", Json.num 1)]])) :=
  ⟨rfl, by decide,
    C5_parse_actions_canonical.2.2.2.2.2.2.2.2.2.2.2
      [("type", Json.str ("open_monologue"))] "open_monologue"
      [Json.obj [("type", Json.str ("stop_self"))]]
      [Json.obj [("type", Json.str ("idle")), ("seconds", Json.num 1)]]
      rfl (by decide)⟩

/-! ### C4 — the parse phase of one actor step -/

/-- C4 (failing input): `extract_json` itself follows the claimed fallback
chain — here shown on garbage input and on prose-wrapped JSON — but the
loop iteration is not raise-free for every completion text: `"[1]"` is
valid JSON, `extract_json` returns the list unchanged, and the iteration's
`data.get("actions", [])` call raises `AttributeError`, which
`Monologue.run` does not catch (only `CancelledError` is). -/
theorem C4_parse_phase_attribute_error :
    parseJson "[1]" = some (Json.arr [Json.num 1]) ∧
    extract_json "[1]" = Json.arr [Json.num 1] ∧
    parsePhase "[1]" = Except.error ("AttributeError") ∧
    extract_json "total garbage" = idleFallback ∧
    parsePhase "total garbage" = Except.ok [ActionType.idle 1] ∧
    extract_json "prose \x7b\"actions\": []\x7d tail" = Json.obj [("actions", Json.arr [])] ∧
    parsePhase "prose \x7b\"actions\": []\x7d tail" = Except.ok [] :=
  ⟨rfl, rfl, rfl, rfl, rfl, rfl, rfl⟩

/-! ### C2 — the kill policy -/

/-- C2: the four outcomes of `kill_with_policy`, each under the
precedence of the checks that come before it in the source, plus
exhaustiveness: every call returns one of exactly these four results. -/
theorem C2_kill_policy_outcomes :
    (∀ o tid, roleOf o (killCallerId o) = "sub" → killTarget o tid ≠ killCallerId o →
       kill_with_policy o tid = (o, { ok := false, error := some ("sub may only kill self") })) ∧
    (∀ o tid, killTarget o tid = o.comms_id →
       (kill_with_policy o tid).2.ok = false ∧ (kill_with_policy o tid).2.error ≠ none) ∧
    (∀ o tid, ¬(roleOf o (killCallerId o) = "sub" ∧ killTarget o tid ≠ killCallerId o) →
       killTarget o tid ≠ o.comms_id → dgetO o.actors (killTarget o tid) = none →
       kill_with_policy o tid = (o, { ok := false, error := some ("unknown id") })) ∧
    (∀ o tid t a, roleOf o (killCallerId o) = "main" → killTarget o tid = some t →
       roleOf o (some t) = "sub" → dget o.actors t = some a →
       kill_with_policy o tid = (setRunning o t false, { ok := true, killed := some t }) ∧
       (dget (kill_with_policy o tid).1.actors t).map (fun x => x.state.running)
         = some false) ∧
    (∀ o tid,
       (kill_with_policy o tid).2 = { ok := false, error := some ("sub may only kill self") } ∨
       (kill_with_policy o tid).2 = { ok := false, error := some ("cannot kill Communication") } ∨
       (kill_with_policy o tid).2 = { ok := false, error := some ("unknown id") } ∨
       ∃ t, (kill_with_policy o tid).2 = { ok := true, killed := some t }) := by
  refine ⟨?_, ?_, ?_, ?_, ?_⟩
  · intro o tid hrole hne
    simp only [kill_with_policy]
    rw [if_pos ⟨hrole, hne⟩]
  · intro o tid hcomms
    simp only [kill_with_policy]
    by_cases hs : roleOf o (killCallerId o) = "sub" ∧ killTarget o tid ≠ killCallerId o
    · rw [if_pos hs]
      exact ⟨rfl, fun h => Option.noConfusion h⟩
    · rw [if_neg hs, if_pos hcomms]
      exact ⟨rfl, fun h => Option.noConfusion h⟩
  · intro o tid hns hnc hget
    simp only [kill_with_policy]
    rw [if_neg hns, if_neg hnc, hget]
    cases killTarget o tid <;> rfl
  · intro o tid t a hmain ht hsub hget
    have hns : ¬(roleOf o (killCallerId o) = "sub" ∧ killTarget o tid ≠ killCallerId o) := by
      intro hc
      rw [hmain] at hc
      exact absurd hc.1 (by decide)
    have hts : some t ≠ o.main_id ∧ some t ≠ o.comms_id := by
      unfold roleOf at hsub
      by_cases h1 : some t = o.main_id
      · rw [if_pos h1] at hsub; exact absurd hsub (by decide)
      · rw [if_neg h1] at hsub
        by_cases h2 : some t = o.comms_id
        · rw [if_pos h2] at hsub; exact absurd hsub (by decide)
        · exact ⟨h1, h2⟩
    have hnc : killTarget o tid ≠ o.comms_id := by
      rw [ht]; exact hts.2
    have hmain_eq :
        kill_with_policy o tid = (setRunning o t false, { ok := true, killed := some t }) := by
      simp only [kill_with_policy]
      rw [if_neg hns, if_neg hnc, ht]
      simp only [dgetO]
      rw [hget]
    refine ⟨hmain_eq, ?_⟩
    rw [hmain_eq]
    show (dget (dupd o.actors t
        (fun a => { a with state := { a.state with running := false } })) t).map
        (fun x => x.state.running) = some false
    rw [dget_dupd, if_pos rfl, hget]
    rfl
  · intro o tid
    simp only [kill_with_policy]
    by_cases hs : roleOf o (killCallerId o) = "sub" ∧ killTarget o tid ≠ killCallerId o
    · rw [if_pos hs]; exact Or.inl rfl
    · rw [if_neg hs]
      by_cases hc : killTarget o tid = o.comms_id
      · rw [if_pos hc]; exact Or.inr (Or.inl rfl)
      · rw [if_neg hc]
        cases ht : killTarget o tid with
        | none => exact Or.inr (Or.inr (Or.inl rfl))
        | some t =>
          simp only [dgetO]
          cases hget : dget o.actors t with
          | none => exact Or.inr (Or.inr (Or.inl rfl))
          | some a => exact Or.inr (Or.inr (Or.inr ⟨t, rfl⟩))

/-! ### Demo fixtures used by witnesses -/

def wMain : Actor := { state := mkActorState "m1" ("Main") ("root goal") none 0, immortal := true }

def wComms : Actor :=
  { state := mkActorState "c1" ("Comms") ("io") none 1, immortal := true, use_llm := false }

def wSub1 : Actor := { state := mkActorState "s1" ("W") ("g1") (some ("m1")) 2 }

def wSub2 : Actor := { state := mkActorState "s2" ("W") ("g2") (some ("m1")) 3 }

def wOrch : Orch :=
  { actors := [("m1", wMain), ("c1", wComms), ("s1", wSub1), ("s2", wSub2)],
    main_id := some ("m1"), comms_id := some ("c1"),
    pending := [("r1", { done := false })], clock := 4 }

def wOrchSub : Orch := { wOrch with current_actor := some ("s1") }

/-- Witness for C2: each of the four outcomes exercised on a concrete
orchestrator (sub kills other sub; sub targets Comms is still an error;
unknown id; main kills a valid sub). -/
theorem C2_kill_policy_outcomes_witness :
    (roleOf wOrchSub (killCallerId wOrchSub) = "sub" ∧
     killTarget wOrchSub (some ("s2")) ≠ killCallerId wOrchSub ∧
     kill_with_policy wOrchSub (some ("s2"))
       = (wOrchSub, { ok := false, error := some ("sub may only kill self") })) ∧
    (killTarget wOrch (some ("c1")) = wOrch.comms_id ∧
     (kill_with_policy wOrch (some ("c1"))).2.ok = false ∧
     (kill_with_policy wOrch (some ("c1"))).2.error ≠ none) ∧
    (¬(roleOf wOrch (killCallerId wOrch) = "sub" ∧
        killTarget wOrch (some ("zz")) ≠ killCallerId wOrch) ∧
     killTarget wOrch (some ("zz")) ≠ wOrch.comms_id ∧
     dgetO wOrch.actors (killTarget wOrch (some ("zz"))) = none ∧
     kill_with_policy wOrch (some ("zz"))
       = (wOrch, { ok := false, error := some ("unknown id") })) ∧
    (roleOf wOrch (killCallerId wOrch) = "main" ∧
     killTarget wOrch (some ("s1")) = some ("s1") ∧
     roleOf wOrch (some ("s1")) = "sub" ∧
     dget wOrch.actors "s1" = some wSub1 ∧
     kill_with_policy wOrch (some ("s1"))
       = (setRunning wOrch "s1" false, { ok := true, killed := some ("s1") }) ∧
     (dget (kill_with_policy wOrch (some ("s1"))).1.actors "s1").map
        (fun x => x.state.running) = some false) := by
  have T := C2_kill_policy_outcomes
  refine ⟨⟨by decide, by decide, T.1 wOrchSub (some ("s2")) (by decide) (by decide)⟩,
    ⟨by decide, (T.2.1 wOrch (some ("c1")) (by decide)).1,
      (T.2.1 wOrch (some ("c1")) (by decide)).2⟩,
    ⟨by decide, by decide, by decide,
      T.2.2.1 wOrch (some ("zz")) (by decide) (by decide) (by decide)⟩,
    ⟨by decide, by decide, by decide, by decide,
      (T.2.2.2.1 wOrch (some ("s1")) "s1" wSub1 (by decide) (by decide) (by decide)
        (by decide)).1,
      (T.2.2.2.1 wOrch (some ("s1")) "s1" wSub1 (by decide) (by decide) (by decide)
        (by decide)).2⟩⟩

/-! ### C10 — kill_with_policy with no current-actor context -/

/-- C10: with no current-actor context the caller identity defaults to the
Main id (role `"main"`), so `kill_with_policy(None)` targets Main itself,
soft-stops it, and returns `{ok: true, killed: <main id>}` — the
immortality flag does not shield Main from the kill policy. -/
theorem C10_kill_none_defaults_to_main (o : Orch) (m c : String) (a : Actor)
    (hca : o.current_actor = none) (hm : o.main_id = some m) (hc : o.comms_id = some c)
    (hmc : m ≠ c) (ha : dget o.actors m = some a) (him : a.immortal = true) :
    killCallerId o = some m ∧
    roleOf o (killCallerId o) = "main" ∧
    kill_with_policy o none = (setRunning o m false, { ok := true, killed := some m }) ∧
    (dget (kill_with_policy o none).1.actors m).map (fun x => x.state.running)
      = some false := by
  have hcid : killCallerId o = some m := by
    simp only [killCallerId, hca, hm]
  have ht : killTarget o none = some m := by
    simp only [killTarget, hcid]
  have hrole : roleOf o (killCallerId o) = "main" := by
    rw [hcid]
    simp only [roleOf]
    rw [hm, if_pos rfl]
  have hns : ¬(roleOf o (killCallerId o) = "sub" ∧ killTarget o none ≠ killCallerId o) := by
    intro hx
    rw [hrole] at hx
    exact absurd hx.1 (by decide)
  have hnc : killTarget o none ≠ o.comms_id := by
    rw [ht, hc]
    intro hx
    exact hmc (Option.some.inj hx)
  have hmain_eq :
      kill_with_policy o none = (setRunning o m false, { ok := true, killed := some m }) := by
    simp only [kill_with_policy]
    rw [if_neg hns, if_neg hnc, ht]
    simp only [dgetO]
    rw [ha]
  refine ⟨hcid, hrole, hmain_eq, ?_⟩
  rw [hmain_eq]
  show (dget (dupd o.actors m
      (fun x => { x with state := { x.state with running := false } })) m).map
      (fun x => x.state.running) = some false
  rw [dget_dupd, if_pos rfl, ha]
  rfl

/-- Witness for C10 on the concrete orchestrator (Main present and
immortal, Comms distinct, no current-actor context). -/
theorem C10_kill_none_defaults_to_main_witness :
    wOrch.current_actor = none ∧ wOrch.main_id = some ("m1") ∧
    wOrch.comms_id = some ("c1") ∧ ("m1" : String) ≠ "c1" ∧
    dget wOrch.actors "m1" = some wMain ∧ wMain.immortal = true ∧
    (killCallerId wOrch = some ("m1") ∧
     roleOf wOrch (killCallerId wOrch) = "main" ∧
     kill_with_policy wOrch none
       = (setRunning wOrch "m1" false, { ok := true, killed := some ("m1") }) ∧
     (dget (kill_with_policy wOrch none).1.actors "m1").map
        (fun x => x.state.running) = some false) :=
  ⟨rfl, rfl, rfl, by decide, by decide, rfl,
    C10_kill_none_defaults_to_main wOrch "m1" "c1" wMain rfl rfl rfl (by decide)
      (by decide) rfl⟩

/-! ### C9 — route_incoming with an unknown target -/

theorem resolveStep_hit (o : Orch) (p : Payload) (rid : String) (fut : Fut)
    (hp : p.reply_to = some rid) (hrid : rid ≠ "")
    (hfut : dget o.pending rid = some fut) (hdone : fut.done = false) :
    resolveStep o p =
      ({ o with pending := (dpop o.pending rid).2 }, [Event.resolved rid p]) := by
  simp only [resolveStep, hp]
  rw [if_neg hrid]
  have h1 : (dpop o.pending rid).1 = some fut := by rw [dpop_fst]; exact hfut
  rw [h1]
  simp [hdone]

theorem resolveStep_miss (o : Orch) (p : Payload) (rid : String)
    (hp : p.reply_to = some rid) (hfut : dget o.pending rid = none) :
    resolveStep o p = (o, []) := by
  simp only [resolveStep, hp]
  by_cases h : rid = ""
  · rw [if_pos h]
  · rw [if_neg h]
    have h1 : (dpop o.pending rid).1 = none := by rw [dpop_fst]; exact hfut
    rw [h1]

theorem route_incoming_unknown (o : Orch) (tgt : String) (p : Payload)
    (h : dget (resolveStep o p).1.actors tgt = none) :
    route_incoming o tgt p =
      { st := (resolveStep o p).1, events := (resolveStep o p).2,
        err := some ("'" ++ tgt ++ "'") } := by
  simp only [route_incoming]
  rw [h]

theorem route_incoming_known (o : Orch) (tgt : String) (p : Payload) (a : Actor)
    (h : dget (resolveStep o p).1.actors tgt = some a) :
    route_incoming o tgt p =
      { st := notifyActorMessage (pushInbox (resolveStep o p).1 tgt (formatLine p)) tgt,
        events := (resolveStep o p).2, err := none } := by
  simp only [route_incoming]
  rw [h]

/-- C9: routing to a target id absent from the registry raises `KeyError`
(whose `str` is the quoted key), delivers no mailbox line and signals no
wake event — yet a matching pending correlation future has already been
resolved and popped before the raise (resolution is not atomic with
delivery). -/
theorem C9_route_unknown_target_keyerror (o : Orch) (tgt : String) (p : Payload)
    (rid : String) (fut : Fut)
    (hp : p.reply_to = some rid) (hrid : rid ≠ "")
    (hfut : dget o.pending rid = some fut) (hdone : fut.done = false)
    (htgt : dget o.actors tgt = none)
    (hnd : (o.pending.map Prod.fst).Nodup) :
    (route_incoming o tgt p).err = some ("'" ++ tgt ++ "'") ∧
    (route_incoming o tgt p).events = [Event.resolved rid p] ∧
    dget (route_incoming o tgt p).st.pending rid = none ∧
    (route_incoming o tgt p).st.actors = o.actors ∧
    (route_incoming o tgt p).st.sleep_events = o.sleep_events := by
  have hr := resolveStep_hit o p rid fut hp hrid hfut hdone
  have hract : (resolveStep o p).1.actors = o.actors := by rw [hr]
  have hku : dget (resolveStep o p).1.actors tgt = none := by rw [hract]; exact htgt
  have hroute := route_incoming_unknown o tgt p hku
  rw [hroute, hr]
  refine ⟨rfl, rfl, ?_, rfl, rfl⟩
  show dget (dpop o.pending rid).2 rid = none
  exact dget_dpop_self rid hnd

def wPayload : Payload :=
  { from_id := some ("s2"), reply_to := some ("r1"), content := some ("pong") }

/-- Witness for C9 on the concrete orchestrator: target `"zz"` unknown,
pending correlation `"r1"` resolved before the `KeyError`. -/
theorem C9_route_unknown_target_keyerror_witness :
    wPayload.reply_to = some ("r1") ∧ ("r1" : String) ≠ "" ∧
    dget wOrch.pending "r1" = some { done := false } ∧
    ({ done := false } : Fut).done = false ∧
    dget wOrch.actors "zz" = none ∧
    (wOrch.pending.map Prod.fst).Nodup ∧
    ((route_incoming wOrch "zz" wPayload).err = some ("'" ++ "zz" ++ "'") ∧
     (route_incoming wOrch "zz" wPayload).events = [Event.resolved "r1" wPayload] ∧
     dget (route_incoming wOrch "zz" wPayload).st.pending "r1" = none ∧
     (route_incoming wOrch "zz" wPayload).st.actors = wOrch.actors ∧
     (route_incoming wOrch "zz" wPayload).st.sleep_events = wOrch.sleep_events) :=
  ⟨rfl, by decide, rfl, rfl, rfl, by decide,
    C9_route_unknown_target_keyerror wOrch "zz" wPayload "r1" { done := false }
      rfl (by decide) rfl rfl rfl (by decide)⟩

/-! ### C1 — correlation ids resolve at most once -/

theorem route_incoming_events (o : Orch) (tgt : String) (p : Payload) :
    (route_incoming o tgt p).events = (resolveStep o p).2 := by
  simp only [route_incoming]
  cases h : dget (resolveStep o p).1.actors tgt <;> rfl

theorem route_incoming_pending (o : Orch) (tgt : String) (p : Payload) :
    (route_incoming o tgt p).st.pending = (resolveStep o p).1.pending := by
  simp only [route_incoming]
  cases h : dget (resolveStep o p).1.actors tgt <;> rfl

theorem dget_pushInbox_self (o : Orch) (k s : String) (a : Actor)
    (h : dget o.actors k = some a) :
    dget (pushInbox o k s).actors k = some { a with inbox := a.inbox ++ [s] } := by
  simp only [pushInbox, updActor]
  rw [dget_dupd, if_pos rfl, h]
  rfl

theorem notify_actors (o : Orch) (k : String) :
    (notifyActorMessage o k).actors = o.actors := rfl

theorem pushMainAudit_pending (o : Orch) (line : String) :
    (pushMainAudit o line).pending = o.pending := by
  unfold pushMainAudit
  cases o.main_id with
  | none => rfl
  | some m =>
    show (if (dget o.actors m).isSome = true then pushInbox o m line else o).pending
      = o.pending
    by_cases h : (dget o.actors m).isSome = true
    · rw [if_pos h]; rfl
    · rw [if_neg h]

theorem onUserFallback_snd (o : Orch) (text : String) : (onUserFallback o text).2 = [] := by
  unfold onUserFallback
  cases o.main_id with
  | none => rfl
  | some m =>
    show (if (dget o.actors m).isSome = true then
        (notifyActorMessage (pushInbox o m ("[USER] " ++ text)) m, ([] : List Event))
      else (o, [])).2 = []
    by_cases h : (dget o.actors m).isSome = true
    · rw [if_pos h]
    · rw [if_neg h]

theorem onUserFallback_pending (o : Orch) (text : String) :
    (onUserFallback o text).1.pending = o.pending := by
  unfold onUserFallback
  cases o.main_id with
  | none => rfl
  | some m =>
    show (if (dget o.actors m).isSome = true then
        (notifyActorMessage (pushInbox o m ("[USER] " ++ text)) m, ([] : List Event))
      else (o, [])).1.pending = o.pending
    by_cases h : (dget o.actors m).isSome = true
    · rw [if_pos h]; rfl
    · rw [if_neg h]

theorem on_user_hit (o : Orch) (text rid : String) (fut : Fut)
    (hrid : rid ≠ "") (hfut : dget o.pending rid = some fut) (hdone : fut.done = false) :
    (on_user_message o text (some rid)).2 = [Event.resolved rid (userPayload rid text)] ∧
    (on_user_message o text (some rid)).1.pending = (dpop o.pending rid).2 := by
  simp only [on_user_message]
  rw [if_neg hrid]
  have h1 : (dpop o.pending rid).1 = some fut := by rw [dpop_fst]; exact hfut
  rw [h1]
  constructor
  · simp [hdone]
  · simp [pushMainAudit_pending]

theorem on_user_miss (o : Orch) (text c : String)
    (hc : c ≠ "") (hfut : dget o.pending c = none) :
    (on_user_message o text (some c)).2 = [] ∧
    (on_user_message o text (some c)).1.pending = o.pending := by
  simp only [on_user_message]
  rw [if_neg hc]
  have h1 : (dpop o.pending c).1 = none := by rw [dpop_fst]; exact hfut
  rw [h1]
  exact ⟨onUserFallback_snd o text, onUserFallback_pending o text⟩

/-- C1: a pending correlation id is resolved at most once.  The first
`route_incoming` whose payload names the id (or the first
`on_user_message` with that id) emits exactly one resolution event and
pops the id from the correlation map; any later `route_incoming` or
`on_user_message` naming the same id resolves nothing and leaves the map
untouched — it only delivers mailbox text. -/
theorem C1_correlation_resolves_once (o : Orch) (rid : String) (fut : Fut)
    (hrid : rid ≠ "") (hfut : dget o.pending rid = some fut) (hdone : fut.done = false)
    (hnd : (o.pending.map Prod.fst).Nodup) :
    (∀ tgt p, p.reply_to = some rid →
       (route_incoming o tgt p).events = [Event.resolved rid p] ∧
       dget (route_incoming o tgt p).st.pending rid = none) ∧
    (∀ tgt p tgt2 p2 a2, p.reply_to = some rid → p2.reply_to = some rid →
       dget (route_incoming o tgt p).st.actors tgt2 = some a2 →
       (route_incoming (route_incoming o tgt p).st tgt2 p2).events = [] ∧
       (route_incoming (route_incoming o tgt p).st tgt2 p2).st.pending
         = (route_incoming o tgt p).st.pending ∧
       (route_incoming (route_incoming o tgt p).st tgt2 p2).err = none ∧
       (dget (route_incoming (route_incoming o tgt p).st tgt2 p2).st.actors tgt2).map
          Actor.inbox = some (a2.inbox ++ [formatLine p2])) ∧
    (∀ text, (on_user_message o text (some rid)).2
         = [Event.resolved rid (userPayload rid text)] ∧
       dget (on_user_message o text (some rid)).1.pending rid = none) ∧
    (∀ tgt p text, p.reply_to = some rid →
       (on_user_message (route_incoming o tgt p).st text (some rid)).2 = [] ∧
       (on_user_message (route_incoming o tgt p).st text (some rid)).1.pending
         = (route_incoming o tgt p).st.pending) := by
  have hpend1 : ∀ tgt p, p.reply_to = some rid →
      (route_incoming o tgt p).st.pending = (dpop o.pending rid).2 := by
    intro tgt p hp
    rw [route_incoming_pending, resolveStep_hit o p rid fut hp hrid hfut hdone]
  have hnone1 : ∀ tgt p, p.reply_to = some rid →
      dget (route_incoming o tgt p).st.pending rid = none := by
    intro tgt p hp
    rw [hpend1 tgt p hp]
    exact dget_dpop_self rid hnd
  refine ⟨?_, ?_, ?_, ?_⟩
  · intro tgt p hp
    refine ⟨?_, hnone1 tgt p hp⟩
    rw [route_incoming_events, resolveStep_hit o p rid fut hp hrid hfut hdone]
  · intro tgt p tgt2 p2 a2 hp hp2 ha2
    have hmiss := resolveStep_miss (route_incoming o tgt p).st p2 rid hp2 (hnone1 tgt p hp)
    have h2 : dget (resolveStep (route_incoming o tgt p).st p2).1.actors tgt2 = some a2 := by
      rw [hmiss]; exact ha2
    have hk := route_incoming_known (route_incoming o tgt p).st tgt2 p2 a2 h2
    refine ⟨?_, ?_, ?_, ?_⟩
    · rw [route_incoming_events, hmiss]
    · rw [route_incoming_pending, hmiss]
    · rw [hk]
    · rw [hk]
      show (dget (notifyActorMessage (pushInbox (resolveStep (route_incoming o tgt p).st p2).1
          tgt2 (formatLine p2)) tgt2).actors tgt2).map Actor.inbox = _
      rw [notify_actors]
      have := dget_pushInbox_self (resolveStep (route_incoming o tgt p).st p2).1 tgt2
        (formatLine p2) a2 h2
      rw [this]
      rfl
  · intro text
    have h := on_user_hit o text rid fut hrid hfut hdone
    refine ⟨h.1, ?_⟩
    rw [h.2]
    exact dget_dpop_self rid hnd
  · intro tgt p text hp
    exact on_user_miss (route_incoming o tgt p).st text rid hrid (hnone1 tgt p hp)

/-- Witness for C1: the pending id `"r1"` of the concrete orchestrator,
routed first to the unknown target `"zz"`, then again to `"s1"`, and
through `on_user_message`. -/
theorem C1_correlation_resolves_once_witness :
    ("r1" : String) ≠ "" ∧
    dget wOrch.pending "r1" = some { done := false } ∧
    ({ done := false } : Fut).done = false ∧
    (wOrch.pending.map Prod.fst).Nodup ∧
    (wPayload.reply_to = some ("r1") ∧
     dget (route_incoming wOrch "zz" wPayload).st.actors "s1" = some wSub1 ∧
     (route_incoming wOrch "zz" wPayload).events = [Event.resolved "r1" wPayload] ∧
     dget (route_incoming wOrch "zz" wPayload).st.pending "r1" = none ∧
     (route_incoming (route_incoming wOrch "zz" wPayload).st "s1" wPayload).events = [] ∧
     (route_incoming (route_incoming wOrch "zz" wPayload).st "s1" wPayload).err = none ∧
     (dget (route_incoming (route_incoming wOrch "zz" wPayload).st "s1" wPayload).st.actors
        "s1").map Actor.inbox = some (wSub1.inbox ++ [formatLine wPayload]) ∧
     (on_user_message wOrch "hello" (some ("r1"))).2
       = [Event.resolved "r1" (userPayload "r1" "hello")] ∧
     dget (on_user_message wOrch "hello" (some ("r1"))).1.pending "r1" = none ∧
     (on_user_message (route_incoming wOrch "zz" wPayload).st "again" (some ("r1"))).2 = []) := by
  have T := C1_correlation_resolves_once wOrch "r1" { done := false }
    (by decide) rfl rfl (by decide)
  have hA := T.1 "zz" wPayload rfl
  have ha2 : dget (route_incoming wOrch "zz" wPayload).st.actors "s1" = some wSub1 := by
    rfl
  have hB := T.2.1 "zz" wPayload "s1" wPayload wSub1 rfl rfl ha2
  have hC := T.2.2.1 "hello"
  have hD := T.2.2.2 "zz" wPayload "again" rfl
  exact ⟨by decide, rfl, rfl, by decide,
    rfl, ha2, hA.1, hA.2, hB.1, hB.2.2.1, hB.2.2.2, hC.1, hC.2, hD.1⟩

/-! ### C8 — the tool registry -/

theorem ensureAsync_spec (h : ToolHandler) :
    (ensureAsync h).isAsync = true ∧ (ensureAsync h).fn = h.fn := by
  unfold ensureAsync
  by_cases hb : h.isAsync = true
  · rw [if_pos hb]
    exact ⟨hb, rfl⟩
  · rw [if_neg hb]
    exact ⟨rfl, rfl⟩

/-- C8: `register` rejects a non-string or empty name, a duplicate name,
and a missing Pydantic model (each as a raised `ToolError`); a valid
registration stores the async-lifted handler (a synchronous handler is
wrapped, its result passed through unchanged).  `call` reports an unknown
name and a kwargs-validation failure as raised `ToolError`s — not
unhandled crashes — and otherwise returns the handler's raw result. -/
theorem C8_tool_registry_contract :
    (∀ tr fn model d i, registerTool tr PyName.nonStr fn model d i
       = Except.error ("Tool name must be non-empty str")) ∧
    (∀ tr fn model d i, registerTool tr (PyName.strv "") fn model d i
       = Except.error ("Tool name must be non-empty str")) ∧
    (∀ tr n fn model d i e, n ≠ "" → dget tr.tools n = some e →
       registerTool tr (PyName.strv n) fn model d i
         = Except.error ("Tool already registered: " ++ n)) ∧
    (∀ tr n fn d i, n ≠ "" → dget tr.tools n = none →
       registerTool tr (PyName.strv n) fn none d i
         = Except.error ("Tool must declare a Pydantic BaseModel via model=")) ∧
    (∀ tr n fn m d i, n ≠ "" → dget tr.tools n = none →
       ∃ tr2, registerTool tr (PyName.strv n) fn (some m) d i = Except.ok tr2 ∧
         dget tr2.tools n = some { handler := ensureAsync fn, model := m,
                                   description := pyStrip d, instructions := pyStrip i } ∧
         (ensureAsync fn).isAsync = true ∧ (ensureAsync fn).fn = fn.fn) ∧
    (∀ tr n kwargs, dget tr.tools n = none →
       callTool tr n kwargs = Except.error ("Unknown tool: " ++ n)) ∧
    (∀ tr n kwargs e msg, dget tr.tools n = some e →
       e.model.validate kwargs = Except.error msg →
       callTool tr n kwargs = Except.error ("Validation failed for " ++ n ++ ": " ++ msg)) ∧
    (∀ tr n kwargs e v, dget tr.tools n = some e →
       e.model.validate kwargs = Except.ok v →
       callTool tr n kwargs = Except.ok (e.handler.fn v)) := by
  refine ⟨?_, ?_, ?_, ?_, ?_, ?_, ?_, ?_⟩
  · intro tr fn model d i
    rfl
  · intro tr fn model d i
    rfl
  · intro tr n fn model d i e hn he
    simp only [registerTool]
    rw [if_neg hn, he]
  · intro tr n fn d i hn hnone
    simp only [registerTool]
    rw [if_neg hn, hnone]
  · intro tr n fn m d i hn hnone
    refine ⟨{ tools := dinsert tr.tools n
                { handler := ensureAsync fn, model := m,
                  description := pyStrip d, instructions := pyStrip i } },
      ?_, ?_, (ensureAsync_spec fn).1, (ensureAsync_spec fn).2⟩
    · simp only [registerTool]
      rw [if_neg hn, hnone]
    · show dget (dinsert tr.tools n _) n = _
      rw [dget_dinsert, if_pos rfl]
  · intro tr n kwargs hnone
    simp only [callTool]
    rw [hnone]
  · intro tr n kwargs e msg he hv
    simp only [callTool]
    rw [he]
    show (match e.model.validate kwargs with
      | Except.error m2 => Except.error ("Validation failed for " ++ n ++ ": " ++ m2)
      | Except.ok payload => Except.ok (e.handler.fn payload)) = _
    rw [hv]
  · intro tr n kwargs e v he hv
    simp only [callTool]
    rw [he]
    show (match e.model.validate kwargs with
      | Except.error m2 => Except.error ("Validation failed for " ++ n ++ ": " ++ m2)
      | Except.ok payload => Except.ok (e.handler.fn payload)) = _
    rw [hv]

def wToolModel : ToolModel :=
  { validate := fun kwargs =>
      match dget kwargs ("x") with
      | some (Json.num q) => Except.ok [("x", Json.num q)]
      | _ => Except.error ("missing x") }

def wToolFn : ToolHandler :=
  { isAsync := false, fn := fun args => Json.obj [("ok", Json.bool true), ("args", Json.obj args)] }

def wToolEntry : ToolEntry :=
  { handler := ensureAsync wToolFn, model := wToolModel,
    description := pyStrip "", instructions := pyStrip "" }

def wReg0 : ToolRegistryState := { tools := [] }

def wReg1 : ToolRegistryState := { tools := [("echo", wToolEntry)] }

/-- Witness for C8: every branch of the register/call contract exercised
on a concrete registry holding one synchronous tool. -/
theorem C8_tool_registry_contract_witness :
    (registerTool wReg0 PyName.nonStr wToolFn (some wToolModel) "" ""
       = Except.error ("Tool name must be non-empty str")) ∧
    (registerTool wReg0 (PyName.strv "") wToolFn (some wToolModel) "" ""
       = Except.error ("Tool name must be non-empty str")) ∧
    (("echo" : String) ≠ "" ∧ dget wReg1.tools "echo" = some wToolEntry ∧
     registerTool wReg1 (PyName.strv "echo") wToolFn (some wToolModel) "" ""
       = Except.error ("Tool already registered: " ++ "echo")) ∧
    (dget wReg0.tools "echo" = none ∧
     registerTool wReg0 (PyName.strv "echo") wToolFn none "" ""
       = Except.error ("Tool must declare a Pydantic BaseModel via model=")) ∧
    (∃ tr2, registerTool wReg0 (PyName.strv "echo") wToolFn (some wToolModel) "" ""
         = Except.ok tr2 ∧
       dget tr2.tools "echo" = some { handler := ensureAsync wToolFn, model := wToolModel,
                                      description := pyStrip "", instructions := pyStrip "" } ∧
       (ensureAsync wToolFn).isAsync = true ∧ (ensureAsync wToolFn).fn = wToolFn.fn) ∧
    (callTool wReg0 "echo" [] = Except.error ("Unknown tool: " ++ "echo")) ∧
    (wToolEntry.model.validate [] = Except.error ("missing x") ∧
     callTool wReg1 "echo" [] = Except.error ("Validation failed for " ++ "echo" ++ ": " ++ "missing x")) ∧
    (wToolEntry.model.validate [("x", Json.num 3)] = Except.ok [("x", Json.num 3)] ∧
     callTool wReg1 "echo" [("x", Json.num 3)]
       = Except.ok (wToolEntry.handler.fn [("x", Json.num 3)])) := by
  have T := C8_tool_registry_contract
  refine ⟨T.1 wReg0 wToolFn (some wToolModel) "" "",
    T.2.1 wReg0 wToolFn (some wToolModel) "" "",
    ⟨by decide, rfl, T.2.2.1 wReg1 "echo" wToolFn (some wToolModel) "" "" wToolEntry
      (by decide) rfl⟩,
    ⟨rfl, T.2.2.2.1 wReg0 "echo" wToolFn "" "" (by decide) rfl⟩,
    T.2.2.2.2.1 wReg0 "echo" wToolFn wToolModel "" "" (by decide) rfl,
    T.2.2.2.2.2.1 wReg0 "echo" [] rfl,
    ⟨rfl, T.2.2.2.2.2.2.1 wReg1 "echo" [] wToolEntry "missing x" rfl rfl⟩,
    ⟨rfl, T.2.2.2.2.2.2.2 wReg1 "echo" [("x", Json.num 3)] wToolEntry
      [("x", Json.num 3)] rfl rfl⟩⟩

/-! ### C3 — population cap and eviction -/

/-- The number of non-immortal registry entries (the quantity `_spawn`
compares against `max_children`). -/
def countNonImmortal (o : Orch) : Nat :=
  (o.actors.filter (fun kv => kv.2.immortal = false)).length

/-- The number of non-immortal entries still flagged running. -/
def countRunningNonImmortal (o : Orch) : Nat :=
  (o.actors.filter (fun kv => !kv.2.immortal && kv.2.state.running)).length

/-- `spawnExec` with the error case defaulted (never hit in the scenarios
below); a convenience for building concrete reachable states. -/
def spawnD (o : Orch) (role goal : String) (newId : String) : Orch :=
  match spawnExec o role goal none false true newId with
  | Except.ok o2 => o2
  | Except.error _ => o

def c3Orch0 : Orch := { max_children := 1 }

def c3O1 : Orch := spawnD c3Orch0 "A" "ga" "aaaa"

def c3O2 : Orch := spawnD c3O1 "B" "gb" "bbbb"

def c3P0 : Orch := { max_children := 2 }

def c3P1 : Orch := spawnD c3P0 "A" "g" "a1"

def c3P2 : Orch := spawnD c3P1 "B" "g" "b1"

def c3P3 : Orch := spawnD c3P2 "C" "g" "c1"

def c3P4 : Orch := spawnD c3P3 "D" "g" "d1"

/-- C3 (counterexample): the cap invariant fails on the code.  With
`max_children = 1`, two spawns reach a state holding two non-immortal
registry entries (eviction soft-stops, it never removes).  With
`max_children = 2`, four spawns reach a state with three non-immortal
actors whose `running` flag is still true: the fourth spawn re-evicts the
already-stopped oldest entry, because `_spawn` picks the oldest by
creation time among all non-immortal entries, stopped ones included. -/
theorem C3_cap_counterexample :
    spawnExec c3Orch0 "A" "ga" none false true "aaaa" = Except.ok c3O1 ∧
    spawnExec c3O1 "B" "gb" none false true "bbbb" = Except.ok c3O2 ∧
    c3O2.max_children = 1 ∧ countNonImmortal c3O2 = 2 ∧
    ¬countNonImmortal c3O2 ≤ c3O2.max_children ∧
    c3P4.max_children = 2 ∧ countRunningNonImmortal c3P4 = 3 ∧
    ¬countRunningNonImmortal c3P4 ≤ c3P4.max_children :=
  ⟨rfl, rfl, rfl, by decide, by decide, rfl, by decide, by decide⟩

theorem oldestEntry_cons_none (k0 : String) (a0 : Actor) (t : List (String × Actor))
    (ht : oldestEntry t = none) : oldestEntry ((k0, a0) :: t) = some (k0, a0) := by
  unfold oldestEntry
  rw [ht]

theorem oldestEntry_cons_le (k0 : String) (a0 : Actor) (t : List (String × Actor))
    (k' : String) (a' : Actor) (ht : oldestEntry t = some (k', a'))
    (hc : a0.state.created ≤ a'.state.created) :
    oldestEntry ((k0, a0) :: t) = some (k0, a0) := by
  unfold oldestEntry
  rw [ht]
  show (if a0.state.created ≤ a'.state.created then some (k0, a0) else some (k', a')) = _
  rw [if_pos hc]

theorem oldestEntry_cons_gt (k0 : String) (a0 : Actor) (t : List (String × Actor))
    (k' : String) (a' : Actor) (ht : oldestEntry t = some (k', a'))
    (hc : ¬a0.state.created ≤ a'.state.created) :
    oldestEntry ((k0, a0) :: t) = some (k', a') := by
  unfold oldestEntry
  rw [ht]
  show (if a0.state.created ≤ a'.state.created then some (k0, a0) else some (k', a')) = _
  rw [if_neg hc]

theorem oldestEntry_eq_none {l : List (String × Actor)}
    (h : oldestEntry l = none) : l = [] := by
  cases l with
  | nil => rfl
  | cons kv t =>
    obtain ⟨k0, a0⟩ := kv
    cases ht : oldestEntry t with
    | none => rw [oldestEntry_cons_none k0 a0 t ht] at h; cases h
    | some e' =>
      obtain ⟨k', a'⟩ := e'
      by_cases hc : a0.state.created ≤ a'.state.created
      · rw [oldestEntry_cons_le k0 a0 t k' a' ht hc] at h; cases h
      · rw [oldestEntry_cons_gt k0 a0 t k' a' ht hc] at h; cases h

theorem oldestEntry_mem {l : List (String × Actor)} :
    ∀ {e : String × Actor}, oldestEntry l = some e → e ∈ l := by
  induction l with
  | nil => intro e h; cases h
  | cons kv t ih =>
    intro e h
    obtain ⟨k0, a0⟩ := kv
    cases ht : oldestEntry t with
    | none =>
      rw [oldestEntry_cons_none k0 a0 t ht] at h
      exact (Option.some.inj h) ▸ List.mem_cons_self _ _
    | some e' =>
      obtain ⟨k', a'⟩ := e'
      by_cases hc : a0.state.created ≤ a'.state.created
      · rw [oldestEntry_cons_le k0 a0 t k' a' ht hc] at h
        exact (Option.some.inj h) ▸ List.mem_cons_self _ _
      · rw [oldestEntry_cons_gt k0 a0 t k' a' ht hc] at h
        exact List.mem_cons_of_mem _ ((Option.some.inj h) ▸ ih ht)

theorem oldestEntry_min {l : List (String × Actor)} {k : String} {a : Actor}
    (h : oldestEntry l = some (k, a)) :
    ∀ kv ∈ l, a.state.created ≤ kv.2.state.created := by
  induction l generalizing k a with
  | nil => cases h
  | cons kv0 t ih =>
    obtain ⟨k0, a0⟩ := kv0
    cases ht : oldestEntry t with
    | none =>
      rw [oldestEntry_cons_none k0 a0 t ht] at h
      have hte := oldestEntry_eq_none ht
      subst hte
      intro kv hkv
      rcases List.mem_cons.mp hkv with hh | hh
      · have ha : a = a0 := congrArg Prod.snd (Option.some.inj h).symm
        rw [ha, hh]
      · cases hh
    | some e' =>
      obtain ⟨k', a'⟩ := e'
      by_cases hc : a0.state.created ≤ a'.state.created
      · rw [oldestEntry_cons_le k0 a0 t k' a' ht hc] at h
        have ha : a = a0 := congrArg Prod.snd (Option.some.inj h).symm
        intro kv hkv
        rcases List.mem_cons.mp hkv with hh | hh
        · rw [ha, hh]
        · exact ha ▸ le_trans hc (ih ht kv hh)
      · rw [oldestEntry_cons_gt k0 a0 t k' a' ht hc] at h
        have ha : a = a' := congrArg Prod.snd (Option.some.inj h).symm
        intro kv hkv
        rcases List.mem_cons.mp hkv with hh | hh
        · rw [ha, hh]
          exact le_of_lt (lt_of_not_le hc)
        · exact ha ▸ ih ht kv hh

theorem dget_of_mem_nodup {α : Type} {l : List (String × α)}
    (hnd : (l.map Prod.fst).Nodup) {k : String} {a : α}
    (hm : (k, a) ∈ l) : dget l k = some a := by
  induction l with
  | nil => cases hm
  | cons kv t ih =>
    obtain ⟨k0, a0⟩ := kv
    simp only [List.map_cons, List.nodup_cons] at hnd
    rcases List.mem_cons.mp hm with h | h
    · have h1 : k = k0 := congrArg Prod.fst h
      have h2 : a = a0 := congrArg Prod.snd h
      rw [dget_cons, if_pos h1.symm, h2]
    · have hk : k ∈ t.map Prod.fst := by
        have := List.mem_map_of_mem Prod.fst h
        exact this
      have hne : ¬k0 = k := fun he => hnd.1 (he ▸ hk)
      rw [dget_cons, if_neg hne]
      exact ih hnd.2 h

theorem dinsert_length_new {α : Type} {l : List (String × α)} {k : String}
    (h : dget l k = none) (v : α) : (dinsert l k v).length = l.length + 1 := by
  induction l with
  | nil => rfl
  | cons kv t ih =>
    obtain ⟨k0, v0⟩ := kv
    rw [dget_cons] at h
    by_cases h0 : k0 = k
    · rw [if_pos h0] at h; cases h
    · rw [if_neg h0] at h
      rw [dinsert_cons, if_neg h0, List.length_cons, List.length_cons, ih h]

theorem dupd_length {α : Type} (l : List (String × α)) (k : String) (f : α → α) :
    (dupd l k f).length = l.length := List.length_map _ _

theorem spawnExec_eq_evict (o : Orch) (role goal : String) (parent : Option String)
    (llm : Bool) (newId : String) (k : String) (a : Actor)
    (hcap : o.max_children ≤ (o.actors.filter (fun kv => kv.2.immortal = false)).length)
    (hold : oldestEntry (o.actors.filter (fun kv => kv.2.immortal = false)) = some (k, a)) :
    spawnExec o role goal parent false llm newId =
      Except.ok { (setRunning o k false) with
        actors := dinsert (setRunning o k false).actors newId
          { state := mkActorState newId role goal parent (setRunning o k false).clock,
            use_llm := llm },
        clock := (setRunning o k false).clock + 1 } := by
  simp only [spawnExec]
  rw [if_pos hcap, hold]
  rfl

theorem spawnExec_eq_nocap (o : Orch) (role goal : String) (parent : Option String)
    (llm : Bool) (newId : String)
    (hlt : (o.actors.filter (fun kv => kv.2.immortal = false)).length < o.max_children) :
    spawnExec o role goal parent false llm newId =
      Except.ok { o with
        actors := dinsert o.actors newId
          { state := mkActorState newId role goal parent o.clock, use_llm := llm },
        clock := o.clock + 1 } := by
  simp only [spawnExec]
  rw [if_neg (not_le.mpr hlt)]
  rfl

/-- C3 (amended): a non-immortal spawn arriving when the count of
non-immortal registry entries has reached `max_children` soft-stops
exactly one actor — the earliest-created non-immortal entry (which may
already be stopped) — and removes nothing: every other entry is
unchanged, and one new entry is appended.  Below the cap no existing
entry is touched.  The registry count of non-immortal actors is *not*
bounded by the cap (see the counterexample theorem). -/
theorem C3_spawn_eviction_amended (o : Orch) (role goal : String) (parent : Option String)
    (llm : Bool) (newId : String)
    (hnodup : (o.actors.map Prod.fst).Nodup)
    (hfresh : dget o.actors newId = none) :
    (∀ k a, o.max_children ≤ (o.actors.filter (fun kv => kv.2.immortal = false)).length →
       oldestEntry (o.actors.filter (fun kv => kv.2.immortal = false)) = some (k, a) →
       ∃ o2, spawnExec o role goal parent false llm newId = Except.ok o2 ∧
         o2.actors.length = o.actors.length + 1 ∧
         dget o.actors k = some a ∧ a.immortal = false ∧
         (∀ kv ∈ o.actors.filter (fun kv => kv.2.immortal = false),
            a.state.created ≤ kv.2.state.created) ∧
         dget o2.actors k = some { a with state := { a.state with running := false } } ∧
         (∀ k', k' ≠ k → k' ≠ newId → dget o2.actors k' = dget o.actors k') ∧
         dget o2.actors newId
           = some { state := mkActorState newId role goal parent o.clock, use_llm := llm }) ∧
    ((o.actors.filter (fun kv => kv.2.immortal = false)).length < o.max_children →
       ∃ o2, spawnExec o role goal parent false llm newId = Except.ok o2 ∧
         o2.actors.length = o.actors.length + 1 ∧
         (∀ k', k' ≠ newId → dget o2.actors k' = dget o.actors k') ∧
         dget o2.actors newId
           = some { state := mkActorState newId role goal parent o.clock, use_llm := llm }) := by
  constructor
  · intro k a hcap hold
    have hka : dget o.actors k = some a :=
      dget_of_mem_nodup hnodup (List.mem_of_mem_filter (oldestEntry_mem hold))
    have hkne : ¬k = newId := by
      intro he
      rw [he, hfresh] at hka
      cases hka
    have haim : a.immortal = false := by
      have hf := List.of_mem_filter (oldestEntry_mem hold)
      exact of_decide_eq_true hf
    have hupd_none : dget (dupd o.actors k
        (fun x => { x with state := { x.state with running := false } })) newId = none := by
      rw [dget_dupd]
      by_cases h : newId = k
      · rw [if_pos h, hfresh]
        rfl
      · rw [if_neg h, hfresh]
    refine ⟨_, spawnExec_eq_evict o role goal parent llm newId k a hcap hold,
      ?_, hka, haim, oldestEntry_min hold, ?_, ?_, ?_⟩
    · show (dinsert (dupd o.actors k
          (fun x => { x with state := { x.state with running := false } })) newId
            { state := mkActorState newId role goal parent o.clock, use_llm := llm }).length
        = o.actors.length + 1
      rw [dinsert_length_new hupd_none, dupd_length]
    · show dget (dinsert (dupd o.actors k
          (fun x => { x with state := { x.state with running := false } })) newId
            { state := mkActorState newId role goal parent o.clock, use_llm := llm }) k = _
      rw [dget_dinsert, if_neg hkne, dget_dupd, if_pos rfl, hka]
      rfl
    · intro k' h1 h2
      show dget (dinsert (dupd o.actors k
          (fun x => { x with state := { x.state with running := false } })) newId
            { state := mkActorState newId role goal parent o.clock, use_llm := llm }) k'
        = dget o.actors k'
      rw [dget_dinsert, if_neg h2, dget_dupd, if_neg h1]
    · show dget (dinsert (dupd o.actors k
          (fun x => { x with state := { x.state with running := false } })) newId
            { state := mkActorState newId role goal parent o.clock, use_llm := llm }) newId = _
      rw [dget_dinsert, if_pos rfl]
  · intro hlt
    refine ⟨_, spawnExec_eq_nocap o role goal parent llm newId hlt, ?_, ?_, ?_⟩
    · show (dinsert o.actors newId
          { state := mkActorState newId role goal parent o.clock, use_llm := llm }).length
        = o.actors.length + 1
      rw [dinsert_length_new hfresh]
    · intro k' h2
      show dget (dinsert o.actors newId
          { state := mkActorState newId role goal parent o.clock, use_llm := llm }) k'
        = dget o.actors k'
      rw [dget_dinsert, if_neg h2]
    · show dget (dinsert o.actors newId
          { state := mkActorState newId role goal parent o.clock, use_llm := llm }) newId = _
      rw [dget_dinsert, if_pos rfl]

def c3WOld : Actor := { state := mkActorState "x1" ("W") ("g") (some ("m1")) 5 }

def c3W : Orch :=
  { actors := [("m1", wMain), ("x1", c3WOld),
               ("x2", { state := mkActorState "x2" ("W") ("g") (some ("m1")) 6 })],
    main_id := some ("m1"), max_children := 2, clock := 7 }

/-- Witness for C3's amended theorem: a registry at capacity (cap 2, two
non-immortal entries) evicts exactly the earliest-created sub. -/
theorem C3_spawn_eviction_amended_witness :
    (c3W.actors.map Prod.fst).Nodup ∧
    dget c3W.actors "x3" = none ∧
    c3W.max_children ≤ (c3W.actors.filter (fun kv => kv.2.immortal = false)).length ∧
    oldestEntry (c3W.actors.filter (fun kv => kv.2.immortal = false))
      = some ("x1", c3WOld) ∧
    (∃ o2, spawnExec c3W "C" "gc" (some ("m1")) false true "x3" = Except.ok o2 ∧
       o2.actors.length = c3W.actors.length + 1 ∧
       dget c3W.actors "x1" = some c3WOld ∧ c3WOld.immortal = false ∧
       (∀ kv ∈ c3W.actors.filter (fun kv => kv.2.immortal = false),
          c3WOld.state.created ≤ kv.2.state.created) ∧
       dget o2.actors "x1"
         = some { c3WOld with state := { c3WOld.state with running := false } } ∧
       (∀ k', k' ≠ "x1" → k' ≠ "x3" → dget o2.actors k' = dget c3W.actors k') ∧
       dget o2.actors "x3"
         = some { state := mkActorState "x3" "C" "gc" (some ("m1")) c3W.clock,
                  use_llm := true }) :=
  ⟨by decide, rfl, by decide, rfl,
    (C3_spawn_eviction_amended c3W "C" "gc" (some ("m1")) true "x3"
      (by decide) rfl).1 "x1" c3WOld (by decide) rfl⟩

/-! ### Preservation engine for dispatch (used by C6 and C7) -/

/-- The observation of one registry entry that no action handler may
change: `last_action`, `last_error`, the step counter, and immortality. -/
def obsA (o : Orch) (aid : String) : Option (String × String × Nat × Bool) :=
  (dget o.actors aid).map
    (fun x => (x.state.last_action, x.state.last_error, x.state.step, x.immortal))

/-- `o'` preserves the observation of `aid` and the step budget of `o`. -/
def Pres (aid : String) (o o' : Orch) : Prop :=
  obsA o' aid = obsA o aid ∧ o'.max_sub_steps = o.max_sub_steps

theorem pres_refl (aid : String) (o : Orch) : Pres aid o o := ⟨rfl, rfl⟩

theorem pres_trans {aid : String} {o1 o2 o3 : Orch}
    (h1 : Pres aid o1 o2) (h2 : Pres aid o2 o3) : Pres aid o1 o3 :=
  ⟨h2.1.trans h1.1, h2.2.trans h1.2⟩

theorem pres_of_eq {aid : String} {o o' : Orch}
    (ha : o'.actors = o.actors) (hm : o'.max_sub_steps = o.max_sub_steps) :
    Pres aid o o' := by
  constructor
  · unfold obsA
    rw [ha]
  · exact hm

theorem pres_updActor {aid : String} (o : Orch) (k : String) (f : Actor → Actor)
    (hf : ∀ x, (f x).state.last_action = x.state.last_action ∧
      (f x).state.last_error = x.state.last_error ∧
      (f x).state.step = x.state.step ∧ (f x).immortal = x.immortal) :
    Pres aid o (updActor o k f) := by
  refine ⟨?_, rfl⟩
  unfold obsA updActor
  show (dget (dupd o.actors k f) aid).map _ = _
  rw [dget_dupd]
  by_cases h : aid = k
  · rw [if_pos h]
    cases dget o.actors aid with
    | none => rfl
    | some x =>
      show some ((f x).state.last_action, (f x).state.last_error,
        (f x).state.step, (f x).immortal) = _
      rw [(hf x).1, (hf x).2.1, (hf x).2.2.1, (hf x).2.2.2]
      rfl
  · rw [if_neg h]

theorem pres_pushInbox {aid : String} (o : Orch) (k s : String) :
    Pres aid o (pushInbox o k s) :=
  pres_updActor o k _ (fun _ => ⟨rfl, rfl, rfl, rfl⟩)

theorem rememberA_state (a : Actor) (e : String) :
    (rememberA a e).state = a.state ∧ (rememberA a e).immortal = a.immortal := by
  unfold rememberA
  by_cases h : pyStrip e = ""
  · rw [if_pos h]
    exact ⟨rfl, rfl⟩
  · rw [if_neg h]
    exact ⟨rfl, rfl⟩

theorem pres_remember {aid : String} (o : Orch) (k e : String) :
    Pres aid o (remember o k e) :=
  pres_updActor o k _ (fun x =>
    ⟨congrArg ActorState.last_action (rememberA_state x e).1,
     congrArg ActorState.last_error (rememberA_state x e).1,
     congrArg ActorState.step (rememberA_state x e).1,
     (rememberA_state x e).2⟩)

theorem pres_setRunning {aid : String} (o : Orch) (k : String) (b : Bool) :
    Pres aid o (setRunning o k b) :=
  pres_updActor o k _ (fun _ => ⟨rfl, rfl, rfl, rfl⟩)

theorem pres_bumpToolCalls {aid : String} (o : Orch) (k : String) :
    Pres aid o (bumpToolCalls o k) :=
  pres_updActor o k _ (fun _ => ⟨rfl, rfl, rfl, rfl⟩)

theorem pres_injectToMain {aid : String} (o : Orch) (inj : Injection) :
    Pres aid o (injectToMain o inj) := pres_of_eq rfl rfl

theorem pres_notify {aid : String} (o : Orch) (k : String) :
    Pres aid o (notifyActorMessage o k) := pres_of_eq rfl rfl

theorem pres_stopChild {aid : String} (o : Orch) (k : String) :
    Pres aid o (stopChild o k) := by
  unfold stopChild
  cases h : dget o.actors k with
  | none => exact pres_refl aid o
  | some a =>
    show Pres aid o (if a.immortal = true then o else setRunning o k false)
    by_cases hi : a.immortal = true
    · rw [if_pos hi]
      exact pres_refl aid o
    · rw [if_neg hi]
      exact pres_setRunning o k false

theorem resolveStep_actors (o : Orch) (p : Payload) :
    (resolveStep o p).1.actors = o.actors ∧
    (resolveStep o p).1.max_sub_steps = o.max_sub_steps := by
  refine ⟨?_, ?_⟩ <;>
  · simp only [resolveStep]
    repeat' first | rfl | split

theorem pres_resolveStep {aid : String} (o : Orch) (p : Payload) :
    Pres aid o (resolveStep o p).1 :=
  pres_of_eq (resolveStep_actors o p).1 (resolveStep_actors o p).2

theorem pres_route {aid : String} (o : Orch) (tgt : String) (p : Payload) :
    Pres aid o (route_incoming o tgt p).st := by
  simp only [route_incoming]
  cases h : dget (resolveStep o p).1.actors tgt with
  | none => exact pres_resolveStep o p
  | some a =>
    exact pres_trans (pres_resolveStep o p)
      (pres_trans (pres_pushInbox _ tgt (formatLine p)) (pres_notify _ tgt))

theorem pres_pushMainAudit {aid : String} (o : Orch) (line : String) :
    Pres aid o (pushMainAudit o line) := by
  unfold pushMainAudit
  cases o.main_id with
  | none => exact pres_refl aid o
  | some m =>
    show Pres aid o (if (dget o.actors m).isSome = true then pushInbox o m line else o)
    by_cases h : (dget o.actors m).isSome = true
    · rw [if_pos h]
      exact pres_pushInbox o m line
    · rw [if_neg h]
      exact pres_refl aid o

theorem pres_onUserFallback {aid : String} (o : Orch) (text : String) :
    Pres aid o (onUserFallback o text).1 := by
  unfold onUserFallback
  cases o.main_id with
  | none => exact pres_refl aid o
  | some m =>
    show Pres aid o ((if (dget o.actors m).isSome = true then
        (notifyActorMessage (pushInbox o m ("[USER] " ++ text)) m, ([] : List Event))
      else (o, [])).1)
    by_cases h : (dget o.actors m).isSome = true
    · rw [if_pos h]
      exact pres_trans (pres_pushInbox o m _) (pres_notify _ m)
    · rw [if_neg h]
      exact pres_refl aid o

theorem pres_onUserMessage {aid : String} (o : Orch) (text : String) (cid : Option String) :
    Pres aid o (on_user_message o text cid).1 := by
  simp only [on_user_message]
  split <;> first
    | exact pres_onUserFallback o text
    | (split <;> first
        | exact pres_onUserFallback o text
        | (split <;> first
            | exact pres_onUserFallback o text
            | exact pres_trans (pres_of_eq rfl rfl) (pres_pushMainAudit _ _)))

theorem spawnExec_eq_idxerr (o : Orch) (role goal : String) (parent : Option String)
    (llm : Bool) (newId : String)
    (hcap : o.max_children ≤ (o.actors.filter (fun kv => kv.2.immortal = false)).length)
    (hoe : oldestEntry (o.actors.filter (fun kv => kv.2.immortal = false)) = none) :
    spawnExec o role goal parent false llm newId
      = Except.error ("list index out of range") := by
  simp only [spawnExec]
  rw [if_pos hcap, hoe]
  rfl

theorem pres_insert_new {aid : String} (o o' : Orch) (newId : String) (v : Actor)
    (hne : aid ≠ newId) (hact : o'.actors = dinsert o.actors newId v)
    (hmax : o'.max_sub_steps = o.max_sub_steps) : Pres aid o o' := by
  constructor
  · unfold obsA
    rw [hact, dget_dinsert, if_neg hne]
  · exact hmax

theorem pres_spawnExec {aid : String} (o : Orch) (role goal : String)
    (parent : Option String) (llm : Bool) (newId : String) (o1 : Orch)
    (h : spawnExec o role goal parent false llm newId = Except.ok o1)
    (hne : aid ≠ newId) : Pres aid o o1 := by
  rcases Nat.lt_or_ge (o.actors.filter (fun kv => kv.2.immortal = false)).length
      o.max_children with hlt | hge
  · rw [spawnExec_eq_nocap o role goal parent llm newId hlt] at h
    have h2 := Except.ok.inj h
    subst h2
    exact pres_insert_new o _ newId _ hne rfl rfl
  · cases hoe : oldestEntry (o.actors.filter (fun kv => kv.2.immortal = false)) with
    | none =>
      rw [spawnExec_eq_idxerr o role goal parent llm newId hge hoe] at h
      cases h
    | some e =>
      obtain ⟨k, a⟩ := e
      rw [spawnExec_eq_evict o role goal parent llm newId k a hge hoe] at h
      have h2 := Except.ok.inj h
      subst h2
      exact pres_trans (pres_setRunning o k false)
        (pres_insert_new (setRunning o k false) _ newId _ hne rfl rfl)

theorem tail_subset_mem {x : String} {l : List String} (h : x ∈ l.tail) : x ∈ l := by
  cases l with
  | nil => cases h
  | cons a t => exact List.mem_cons_of_mem a h

theorem handleBuiltin_supply (o : Orch) (aid : String) (act : ActionType)
    (supply : List String) :
    (handleBuiltin o aid act supply).supply = supply ∨
    (handleBuiltin o aid act supply).supply = supply.tail := by
  cases act with
  | inject content => exact Or.inl rfl
  | spawn role goal =>
    simp only [handleBuiltin]
    cases h : spawnExec o role goal (some aid) false true (supply.headD "") with
    | error e => exact Or.inr rfl
    | ok o1 => exact Or.inr rfl
  | stop_self => exact Or.inl rfl
  | stop_child cid => exact Or.inl rfl
  | sleep s => exact Or.inl rfl
  | idle s => exact Or.inl rfl
  | tool name args =>
    simp only [handleBuiltin]
    cases h : callTool o.tools name args with
    | error e => exact Or.inl rfl
    | ok r => exact Or.inl rfl
  | report_status =>
    simp only [handleBuiltin]
    cases h : dget o.actors aid with
    | none => exact Or.inl rfl
    | some a => exact Or.inl rfl
  | route_message toId content =>
    simp only [handleBuiltin]
    cases h : (route_incoming o toId
        { from_id := some aid, content := some content }).err with
    | none => exact Or.inl rfl
    | some e => exact Or.inl rfl
  | ask_user qid content choices => exact Or.inl rfl
  | user_reply irt content => exact Or.inl rfl

theorem handleBuiltin_pres (o : Orch) (aid : String) (act : ActionType)
    (supply : List String) (hne : aid ≠ "") (hns : aid ∉ supply) :
    Pres aid o (handleBuiltin o aid act supply).st := by
  cases act with
  | inject content =>
    exact pres_trans (pres_injectToMain o _) (pres_remember _ aid _)
  | spawn role goal =>
    have hnid : aid ≠ supply.headD "" := by
      cases supply with
      | nil => simpa using hne
      | cons hh tt =>
        intro he
        exact hns (he ▸ List.mem_cons_self hh tt)
    simp only [handleBuiltin]
    cases h : spawnExec o role goal (some aid) false true (supply.headD "") with
    | error e => exact pres_refl aid o
    | ok o1 =>
      exact pres_trans (pres_spawnExec o role goal (some aid) true (supply.headD "") o1 h hnid)
        (pres_trans
          (pres_updActor o1 aid
            (fun a => { a with children := childAdd a.children (supply.headD "") })
            (fun _ => ⟨rfl, rfl, rfl, rfl⟩))
          (pres_remember _ aid ("spawn:" ++ supply.headD "" ++ ":" ++ role)))
  | stop_self =>
    exact pres_trans (pres_setRunning o aid false) (pres_remember _ aid _)
  | stop_child cid =>
    exact pres_trans (pres_stopChild o cid)
      (pres_trans
        (pres_updActor (stopChild o cid) aid
          (fun a => { a with children := a.children.erase cid })
          (fun _ => ⟨rfl, rfl, rfl, rfl⟩))
        (pres_remember _ aid ("stop_child:" ++ cid)))
  | sleep s =>
    simp only [handleBuiltin]
    by_cases hs : s ≤ 0
    · rw [if_pos hs]
      exact pres_remember o aid _
    · rw [if_neg hs]
      exact pres_trans (pres_of_eq rfl rfl) (pres_remember _ aid _)
  | idle s => exact pres_remember o aid _
  | tool name args =>
    simp only [handleBuiltin]
    cases h : callTool o.tools name args with
    | error e => exact pres_refl aid o
    | ok r =>
      exact pres_trans (pres_bumpToolCalls o aid)
        (pres_trans (pres_pushInbox _ aid _) (pres_remember _ aid _))
  | report_status =>
    simp only [handleBuiltin]
    cases h : dget o.actors aid with
    | none => exact pres_refl aid o
    | some a =>
      exact pres_trans (pres_pushInbox o aid _) (pres_remember _ aid _)
  | route_message toId content =>
    simp only [handleBuiltin]
    cases h : (route_incoming o toId
        { from_id := some aid, content := some content }).err with
    | none => exact pres_trans (pres_route o toId _) (pres_remember _ aid _)
    | some e => exact pres_route o toId _
  | ask_user qid content choices => exact pres_remember o aid _
  | user_reply irt content =>
    exact pres_trans (pres_onUserMessage o content (some irt)) (pres_remember _ aid _)

theorem handleBuiltin_handled (o : Orch) (aid : String) (act : ActionType)
    (supply : List String) : (handleBuiltin o aid act supply).handled = true := by
  cases act with
  | inject content => rfl
  | spawn role goal =>
    simp only [handleBuiltin]
    cases h : spawnExec o role goal (some aid) false true (supply.headD "") with
    | error e => rfl
    | ok o1 => rfl
  | stop_self => rfl
  | stop_child cid => rfl
  | sleep s => rfl
  | idle s => rfl
  | tool name args =>
    simp only [handleBuiltin]
    cases h : callTool o.tools name args with
    | error e => rfl
    | ok r => rfl
  | report_status =>
    simp only [handleBuiltin]
    cases h : dget o.actors aid with
    | none => rfl
    | some a => rfl
  | route_message toId content =>
    simp only [handleBuiltin]
    cases h : (route_incoming o toId
        { from_id := some aid, content := some content }).err with
    | none => rfl
    | some e => rfl
  | ask_user qid content choices => rfl
  | user_reply irt content => rfl

/-- The step counter and immortality flag of one registry entry. -/
def stepImm (o : Orch) (aid : String) : Option (Nat × Bool) :=
  (obsA o aid).map (fun t => t.2.2)

theorem stepImm_of_pres {aid : String} {o o' : Orch} (h : Pres aid o o') :
    stepImm o' aid = stepImm o aid := by
  unfold stepImm
  rw [h.1]

theorem stepImm_updActor (o : Orch) (k : String) (f : Actor → Actor) (aid : String)
    (hf : ∀ x, (f x).state.step = x.state.step ∧ (f x).immortal = x.immortal) :
    stepImm (updActor o k f) aid = stepImm o aid := by
  unfold stepImm obsA updActor
  show ((dget (dupd o.actors k f) aid).map _).map _ = _
  rw [dget_dupd]
  by_cases h : aid = k
  · rw [if_pos h]
    cases dget o.actors aid with
    | none => rfl
    | some x =>
      show some ((f x).state.step, (f x).immortal) = some (x.state.step, x.immortal)
      rw [(hf x).1, (hf x).2]
  · rw [if_neg h]

theorem dispatchOne_eq_ok (o : Orch) (aid : String) (act : ActionType)
    (supply : List String)
    (hh : (handleBuiltin { setFlags o aid (ActionType.tag act) "" with
        current_actor := some aid } aid act supply).handled = true)
    (he : (handleBuiltin { setFlags o aid (ActionType.tag act) "" with
        current_actor := some aid } aid act supply).err = none) :
    dispatchOne o aid act supply =
      { st := { (handleBuiltin { setFlags o aid (ActionType.tag act) "" with
            current_actor := some aid } aid act supply).st with current_actor := none },
        supply := (handleBuiltin { setFlags o aid (ActionType.tag act) "" with
            current_actor := some aid } aid act supply).supply,
        events := (handleBuiltin { setFlags o aid (ActionType.tag act) "" with
            current_actor := some aid } aid act supply).events } := by
  simp only [dispatchOne]
  rw [hh, if_pos rfl, he]

theorem dispatchOne_eq_err (o : Orch) (aid : String) (act : ActionType)
    (supply : List String) (e : String)
    (hh : (handleBuiltin { setFlags o aid (ActionType.tag act) "" with
        current_actor := some aid } aid act supply).handled = true)
    (he : (handleBuiltin { setFlags o aid (ActionType.tag act) "" with
        current_actor := some aid } aid act supply).err = some e) :
    dispatchOne o aid act supply =
      { st := { remember (setLastErr (handleBuiltin { setFlags o aid (ActionType.tag act) ""
            with current_actor := some aid } aid act supply).st aid e) aid
            ("error:" ++ ActionType.tag act ++ ":" ++ e) with current_actor := none },
        supply := (handleBuiltin { setFlags o aid (ActionType.tag act) "" with
            current_actor := some aid } aid act supply).supply,
        events := (handleBuiltin { setFlags o aid (ActionType.tag act) "" with
            current_actor := some aid } aid act supply).events } := by
  simp only [dispatchOne]
  rw [hh, if_pos rfl, he]

theorem dispatchOne_core (o : Orch) (aid : String) (act : ActionType)
    (supply : List String) (hne : aid ≠ "") (hns : aid ∉ supply) :
    stepImm (dispatchOne o aid act supply).st aid = stepImm o aid ∧
    (dispatchOne o aid act supply).st.max_sub_steps = o.max_sub_steps ∧
    ((dispatchOne o aid act supply).supply = supply ∨
     (dispatchOne o aid act supply).supply = supply.tail) := by
  have hh := handleBuiltin_handled { setFlags o aid (ActionType.tag act) "" with
    current_actor := some aid } aid act supply
  have hpres := handleBuiltin_pres { setFlags o aid (ActionType.tag act) "" with
    current_actor := some aid } aid act supply hne hns
  have hsup := handleBuiltin_supply { setFlags o aid (ActionType.tag act) "" with
    current_actor := some aid } aid act supply
  have hbase : stepImm { setFlags o aid (ActionType.tag act) "" with
      current_actor := some aid } aid = stepImm o aid := by
    show stepImm (setFlags o aid (ActionType.tag act) "") aid = stepImm o aid
    exact stepImm_updActor o aid _ aid (fun _ => ⟨rfl, rfl⟩)
  cases herr : (handleBuiltin { setFlags o aid (ActionType.tag act) "" with
      current_actor := some aid } aid act supply).err with
  | none =>
    rw [dispatchOne_eq_ok o aid act supply hh herr]
    refine ⟨?_, ?_, hsup⟩
    · show stepImm (handleBuiltin { setFlags o aid (ActionType.tag act) "" with
        current_actor := some aid } aid act supply).st aid = stepImm o aid
      rw [stepImm_of_pres hpres]
      exact hbase
    · show (handleBuiltin { setFlags o aid (ActionType.tag act) "" with
        current_actor := some aid } aid act supply).st.max_sub_steps = o.max_sub_steps
      rw [hpres.2]
      rfl
  | some e =>
    rw [dispatchOne_eq_err o aid act supply e hh herr]
    refine ⟨?_, ?_, hsup⟩
    · show stepImm (remember (setLastErr (handleBuiltin _ aid act supply).st aid e) aid
        ("error:" ++ ActionType.tag act ++ ":" ++ e)) aid = stepImm o aid
      unfold remember setLastErr
      rw [stepImm_updActor _ aid
        (fun a => rememberA a ("error:" ++ ActionType.tag act ++ ":" ++ e)) aid
        (fun x => ⟨congrArg ActorState.step (rememberA_state x _).1, (rememberA_state x _).2⟩)]
      rw [stepImm_updActor _ aid
        (fun a => { a with state := { a.state with last_error := e } }) aid
        (fun _ => ⟨rfl, rfl⟩)]
      rw [stepImm_of_pres hpres]
      exact hbase
    · show (remember (setLastErr (handleBuiltin _ aid act supply).st aid e) aid
        ("error:" ++ ActionType.tag act ++ ":" ++ e)).max_sub_steps = o.max_sub_steps
      show (handleBuiltin { setFlags o aid (ActionType.tag act) "" with
        current_actor := some aid } aid act supply).st.max_sub_steps = o.max_sub_steps
      rw [hpres.2]
      rfl

/-! ### C6 — the dispatch rule -/

theorem dget_updActor_self (o : Orch) (aid : String) (f : Actor → Actor) :
    dget (updActor o aid f).actors aid = (dget o.actors aid).map f := by
  show dget (dupd o.actors aid f) aid = _
  rw [dget_dupd, if_pos rfl]

theorem obsA_setFlags_self (o : Orch) (aid tagv errv : String) (a : Actor)
    (ha : dget o.actors aid = some a) :
    obsA (setFlags o aid tagv errv) aid
      = some (tagv, errv, a.state.step, a.immortal) := by
  unfold obsA setFlags
  rw [dget_updActor_self, ha]
  rfl

theorem obsA_eq_some {o : Orch} {aid : String} {t : String × String × Nat × Bool}
    (h : obsA o aid = some t) :
    ∃ a', dget o.actors aid = some a' ∧ a'.state.last_action = t.1 ∧
      a'.state.last_error = t.2.1 ∧ a'.state.step = t.2.2.1 ∧ a'.immortal = t.2.2.2 := by
  unfold obsA at h
  cases hg : dget o.actors aid with
  | none => rw [hg] at h; cases h
  | some a' =>
    rw [hg] at h
    have h2 := Option.some.inj h
    refine ⟨a', rfl, ?_, ?_, ?_, ?_⟩ <;> rw [← h2]

theorem mem_dropWhile_of_not {p : Char → Bool} {x : Char} :
    ∀ {l : List Char}, x ∈ l → p x = false → x ∈ l.dropWhile p := by
  intro l
  induction l with
  | nil => intro h; cases h
  | cons h t ih =>
    intro hm hp
    by_cases hph : p h = true
    · rw [List.dropWhile_cons_of_pos hph]
      rcases List.mem_cons.mp hm with he | ht
      · rw [he, hph] at hp; cases hp
      · exact ih ht hp
    · rw [List.dropWhile_cons_of_neg hph]
      exact hm

theorem pyStrip_ne_empty {s : String} {c : Char} (hc : c ∈ s.data)
    (hw : isPyWs c = false) : pyStrip s ≠ "" := by
  intro he
  unfold pyStrip at he
  have hl : ((s.data.dropWhile isPyWs).reverse.dropWhile isPyWs).reverse = [] := by
    have h2 := congrArg String.data he
    simpa using h2
  rw [List.reverse_eq_nil_iff] at hl
  have h1 : c ∈ s.data.dropWhile isPyWs := mem_dropWhile_of_not hc hw
  have h2 : c ∈ (s.data.dropWhile isPyWs).reverse := List.mem_reverse.mpr h1
  have h3 := mem_dropWhile_of_not h2 hw
  rw [hl] at h3
  cases h3

theorem rememberA_last (a : Actor) (entry : String) (h : pyStrip entry ≠ "") :
    (rememberA a entry).context_buffer.getLast? = some (pyStrip entry) := by
  unfold rememberA
  rw [if_neg h]
  show (if 50 < (a.context_buffer ++ [pyStrip entry]).length
      then (a.context_buffer ++ [pyStrip entry]).drop
        ((a.context_buffer ++ [pyStrip entry]).length - 50)
      else a.context_buffer ++ [pyStrip entry]).getLast? = some (pyStrip entry)
  by_cases h2 : 50 < (a.context_buffer ++ [pyStrip entry]).length
  · rw [if_pos h2]
    have hle : (a.context_buffer ++ [pyStrip entry]).length - 50 ≤ a.context_buffer.length := by
      rw [List.length_append]
      simp only [List.length_cons, List.length_nil]
      omega
    rw [List.drop_append_of_le_length hle]
    exact List.getLast?_concat _
  · rw [if_neg h2]
    exact List.getLast?_concat _

theorem errEntry_ne_empty (tagv e : String) :
    pyStrip ("error:" ++ tagv ++ ":" ++ e) ≠ "" := by
  have hc : ('e') ∈ ("error:" ++ tagv ++ ":" ++ e).data := by
    simp only [String.data_append]
    exact List.mem_append_left _ (List.mem_append_left _ (List.mem_append_left _ (by decide)))
  exact pyStrip_ne_empty hc (by decide)

/-- C6: the dispatch rule of `_dispatch_actions`.  (1) The protocol layer
recognizes every parsed action, so the capability fallback is consulted
only when the protocol layer declines — which never happens for a parsed
action.  (2) A tag registered in neither layer is skipped silently (no
state change, no error).  (3) Per action, `last_action` is set to the tag
and `last_error` cleared; a handler exception is caught, its string form
stored in `last_error` and appended to the activity log; the step counter
and immortality are untouched either way.  (4)–(5) dispatch continues
with the next action after each one (including after an error), and an
empty list just clears both flags — `_dispatch_actions` itself never
raises (its result carries no error). -/
theorem C6_dispatch_rule :
    (∀ o aid act supply, (handleBuiltin o aid act supply).handled = true) ∧
    (∀ o aid act supply, ActionType.tag act ∉ ACTION_HANDLER_TAGS →
       capFallback o aid act supply
         = { st := o, supply := supply, events := [], err := none, handled := false }) ∧
    (∀ o aid act supply a, dget o.actors aid = some a → aid ≠ "" → aid ∉ supply →
       ∃ a', dget (dispatchOne o aid act supply).st.actors aid = some a' ∧
         a'.state.last_action = ActionType.tag act ∧
         a'.state.step = a.state.step ∧ a'.immortal = a.immortal ∧
         ((handleBuiltin { setFlags o aid (ActionType.tag act) "" with
             current_actor := some aid } aid act supply).err = none →
           a'.state.last_error = "") ∧
         (∀ e, (handleBuiltin { setFlags o aid (ActionType.tag act) "" with
             current_actor := some aid } aid act supply).err = some e →
           a'.state.last_error = e ∧
           a'.context_buffer.getLast?
             = some (pyStrip ("error:" ++ ActionType.tag act ++ ":" ++ e)))) ∧
    (∀ o aid act rest supply,
       dispatchGo o aid (act :: rest) supply =
         { st := (dispatchGo (dispatchOne o aid act supply).st aid rest
             (dispatchOne o aid act supply).supply).st,
           supply := (dispatchGo (dispatchOne o aid act supply).st aid rest
             (dispatchOne o aid act supply).supply).supply,
           events := (dispatchOne o aid act supply).events ++
             (dispatchGo (dispatchOne o aid act supply).st aid rest
               (dispatchOne o aid act supply).supply).events }) ∧
    (∀ o aid supply, dispatchActions o aid ([] : List ActionType) supply
       = { st := setFlags o aid "" "", supply := supply, events := [] }) := by
  refine ⟨handleBuiltin_handled, ?_, ?_, ?_, ?_⟩
  · intro o aid act supply hmem
    unfold capFallback
    rw [if_neg ?hc]
    case hc =>
      intro hx
      exact hmem hx
  · intro o aid act supply a ha hne hns
    have hh := handleBuiltin_handled { setFlags o aid (ActionType.tag act) "" with
      current_actor := some aid } aid act supply
    have hpres := handleBuiltin_pres { setFlags o aid (ActionType.tag act) "" with
      current_actor := some aid } aid act supply hne hns
    have hobs : obsA (handleBuiltin { setFlags o aid (ActionType.tag act) "" with
        current_actor := some aid } aid act supply).st aid
        = some (ActionType.tag act, "", a.state.step, a.immortal) := by
      rw [hpres.1]
      show obsA (setFlags o aid (ActionType.tag act) "") aid = _
      exact obsA_setFlags_self o aid _ "" a ha
    obtain ⟨a1, ha1, hla, hle, hst, him2⟩ := obsA_eq_some hobs
    cases herr : (handleBuiltin { setFlags o aid (ActionType.tag act) "" with
        current_actor := some aid } aid act supply).err with
    | none =>
      rw [dispatchOne_eq_ok o aid act supply hh herr]
      refine ⟨a1, ha1, hla, hst, him2, fun _ => hle, ?_⟩
      intro e he
      cases he
    | some e =>
      rw [dispatchOne_eq_err o aid act supply e hh herr]
      refine ⟨rememberA { a1 with state := { a1.state with last_error := e } }
          ("error:" ++ ActionType.tag act ++ ":" ++ e), ?_, ?_, ?_, ?_, ?_, ?_⟩
      · show dget (remember (setLastErr (handleBuiltin { setFlags o aid (ActionType.tag act) ""
            with current_actor := some aid } aid act supply).st aid e) aid
            ("error:" ++ ActionType.tag act ++ ":" ++ e)).actors aid
          = some (rememberA { a1 with state := { a1.state with last_error := e } }
            ("error:" ++ ActionType.tag act ++ ":" ++ e))
        unfold remember setLastErr
        rw [dget_updActor_self, dget_updActor_self, ha1]
        rfl
      · rw [congrArg ActorState.last_action (rememberA_state _ _).1]
        exact hla
      · rw [congrArg ActorState.step (rememberA_state _ _).1]
        exact hst
      · rw [(rememberA_state _ _).2]
        exact him2
      · intro hnone
        cases hnone
      · intro e2 he2
        have he3 := Option.some.inj he2
        subst he3
        refine ⟨?_, rememberA_last _ _ (errEntry_ne_empty _ _)⟩
        rw [congrArg ActorState.last_error (rememberA_state _ _).1]
  · intro o aid act rest supply
    rfl
  · intro o aid supply
    rfl

theorem C6_dispatch_rule_witness :
    ∃ a', dget (dispatchOne wOrch "s1" (ActionType.route_message "zz" "boom") []).st.actors "s1"
        = some a' ∧
      a'.state.last_action = "route_message" ∧
      a'.state.step = wSub1.state.step ∧
      a'.state.last_error = ("'" ++ "zz" ++ "'") ∧
      a'.context_buffer.getLast?
        = some ("error:route_message:" ++ "'" ++ "zz" ++ "'") := by
  obtain ⟨a', h1, h2, h3, _, _, h6⟩ :=
    C6_dispatch_rule.2.2.1 wOrch "s1" (ActionType.route_message "zz" "boom") [] wSub1
      rfl (by decide) (by decide)
  have h7 := h6 ("'" ++ "zz" ++ "'") rfl
  exact ⟨a', h1, h2, h3, h7.1, h7.2.trans (by rfl)⟩

/-! ### C7 — the step budget and the cleanup of the run loop -/

theorem stepImm_eq_some_of {o : Orch} {aid : String} {a : Actor}
    (hd : dget o.actors aid = some a) :
    stepImm o aid = some (a.state.step, a.immortal) := by
  unfold stepImm obsA
  rw [hd]
  rfl

theorem of_stepImm_eq_some {o : Orch} {aid : String} {p : Nat × Bool}
    (h : stepImm o aid = some p) :
    ∃ a, dget o.actors aid = some a ∧ a.state.step = p.1 ∧ a.immortal = p.2 := by
  unfold stepImm obsA at h
  cases hg : dget o.actors aid with
  | none => rw [hg] at h; cases h
  | some a =>
    rw [hg] at h
    have h2 := Option.some.inj h
    exact ⟨a, rfl, congrArg Prod.fst h2, congrArg Prod.snd h2⟩

theorem stepImm_bumpStep (o : Orch) (aid : String) :
    stepImm (bumpStep o aid) aid
      = (stepImm o aid).map (fun p => (p.1 + 1, p.2)) := by
  unfold stepImm obsA bumpStep
  rw [dget_updActor_self]
  cases dget o.actors aid with
  | none => rfl
  | some a => rfl

theorem finalizeRun_spec (o : Orch) (aid : String) (a : Actor)
    (hd : dget o.actors aid = some a) (him : a.immortal = false) :
    dget (finalizeRun o aid).actors aid
      = some { a with state := { a.state with running := false } } := by
  unfold finalizeRun
  rw [hd]
  show dget (if a.immortal = true then o else setRunning o aid false).actors aid = _
  have hcond : ¬(a.immortal = true) := by
    rw [him]
    exact fun h => Bool.noConfusion h
  rw [if_neg hcond]
  unfold setRunning
  rw [dget_updActor_self, hd]
  rfl

theorem dispatchGo_core : ∀ (acts : List ActionType) (o : Orch) (aid : String)
    (supply : List String), aid ≠ "" → aid ∉ supply →
    stepImm (dispatchGo o aid acts supply).st aid = stepImm o aid ∧
    (dispatchGo o aid acts supply).st.max_sub_steps = o.max_sub_steps ∧
    ∃ n, (dispatchGo o aid acts supply).supply = supply.drop n := by
  intro acts
  induction acts with
  | nil =>
    intro o aid supply hne hns
    exact ⟨rfl, rfl, ⟨0, rfl⟩⟩
  | cons act rest ih =>
    intro o aid supply hne hns
    have h1 := dispatchOne_core o aid act supply hne hns
    have hns2 : aid ∉ (dispatchOne o aid act supply).supply := by
      rcases h1.2.2 with h | h
      · rw [h]; exact hns
      · rw [h]; intro hm; exact hns (tail_subset_mem hm)
    have h2 := ih (dispatchOne o aid act supply).st aid
      (dispatchOne o aid act supply).supply hne hns2
    refine ⟨?_, ?_, ?_⟩
    · show stepImm (dispatchGo (dispatchOne o aid act supply).st aid rest
        (dispatchOne o aid act supply).supply).st aid = stepImm o aid
      rw [h2.1, h1.1]
    · show (dispatchGo (dispatchOne o aid act supply).st aid rest
        (dispatchOne o aid act supply).supply).st.max_sub_steps = o.max_sub_steps
      rw [h2.2.1, h1.2.1]
    · obtain ⟨n, hn⟩ := h2.2.2
      rcases h1.2.2 with h | h
      · refine ⟨n, ?_⟩
        show (dispatchGo (dispatchOne o aid act supply).st aid rest
          (dispatchOne o aid act supply).supply).supply = supply.drop n
        rw [hn, h]
      · refine ⟨n + 1, ?_⟩
        show (dispatchGo (dispatchOne o aid act supply).st aid rest
          (dispatchOne o aid act supply).supply).supply = supply.drop (n + 1)
        rw [hn, h, ← List.drop_one, List.drop_drop, Nat.add_comm 1 n]

theorem dispatchActions_core (o : Orch) (aid : String) (acts : List ActionType)
    (supply : List String) (hne : aid ≠ "") (hns : aid ∉ supply) :
    stepImm (dispatchActions o aid acts supply).st aid = stepImm o aid ∧
    (dispatchActions o aid acts supply).st.max_sub_steps = o.max_sub_steps ∧
    ∃ n, (dispatchActions o aid acts supply).supply = supply.drop n := by
  unfold dispatchActions
  by_cases he : acts.isEmpty = true
  · rw [if_pos he]
    refine ⟨?_, rfl, ⟨0, rfl⟩⟩
    show stepImm (setFlags o aid "" "") aid = stepImm o aid
    exact stepImm_updActor o aid _ aid (fun _ => ⟨rfl, rfl⟩)
  · rw [if_neg he]
    exact dispatchGo_core acts o aid supply hne hns

theorem foldl_rememberA_sti (g : String → String) :
    ∀ (l : List String) (a : Actor),
      (List.foldl (fun acc m => rememberA acc (g m)) a l).state = a.state ∧
      (List.foldl (fun acc m => rememberA acc (g m)) a l).immortal = a.immortal := by
  intro l
  induction l with
  | nil => intro a; exact ⟨rfl, rfl⟩
  | cons m t ih =>
    intro a
    have h := ih (rememberA a (g m))
    exact ⟨h.1.trans (rememberA_state a (g m)).1, h.2.trans (rememberA_state a (g m)).2⟩

theorem pres_buildPromptEffects (aid k : String) (o : Orch) :
    Pres aid o (buildPromptEffects o k) := by
  refine pres_updActor o k _ (fun x => ⟨?_, ?_, ?_, ?_⟩)
  · show (List.foldl (fun acc m => rememberA acc ("inbox:" ++ m)) x x.inbox).state.last_action
      = x.state.last_action
    exact congrArg ActorState.last_action
      (foldl_rememberA_sti (fun m => ("inbox:" ++ m)) x.inbox x).1
  · show (List.foldl (fun acc m => rememberA acc ("inbox:" ++ m)) x x.inbox).state.last_error
      = x.state.last_error
    exact congrArg ActorState.last_error
      (foldl_rememberA_sti (fun m => ("inbox:" ++ m)) x.inbox x).1
  · show (List.foldl (fun acc m => rememberA acc ("inbox:" ++ m)) x x.inbox).state.step
      = x.state.step
    exact congrArg ActorState.step
      (foldl_rememberA_sti (fun m => ("inbox:" ++ m)) x.inbox x).1
  · show (List.foldl (fun acc m => rememberA acc ("inbox:" ++ m)) x x.inbox).immortal
      = x.immortal
    exact (foldl_rememberA_sti (fun m => ("inbox:" ++ m)) x.inbox x).2

theorem pres_foldl_str (aid : String) (f : Orch → String → Orch)
    (hf : ∀ o m, Pres aid o (f o m)) :
    ∀ (l : List String) (o : Orch), Pres aid o (List.foldl f o l) := by
  intro l
  induction l with
  | nil => intro o; exact pres_refl aid o
  | cons m t ih => intro o; exact pres_trans (hf o m) (ih (f o m))

theorem pres_forwardBody (aid k : String) (o : Orch) : Pres aid o (forwardBody o k) := by
  unfold forwardBody
  cases hd : dget o.actors k with
  | none => exact pres_refl aid o
  | some a =>
    have h1 : Pres aid o (updActor o k (fun a2 => { a2 with inbox := ([] : List String) })) :=
      pres_updActor o k _ (fun _ => ⟨rfl, rfl, rfl, rfl⟩)
    have h2 : Pres aid (updActor o k (fun a2 => { a2 with inbox := ([] : List String) }))
        (List.foldl
          (fun acc m =>
            remember (injectToMain acc { from_id := k, content := ("[user] " ++ m) })
              k ("forwarded:" ++ m))
          (updActor o k (fun a2 => { a2 with inbox := ([] : List String) })) a.inbox) :=
      pres_foldl_str aid _
        (fun o2 m => pres_trans (pres_injectToMain o2 _) (pres_remember _ k _)) a.inbox _
    exact pres_trans (pres_trans h1 h2) (pres_of_eq rfl rfl)

theorem iterBody_eq_none (o : Orch) (aid raw : String) (supply : List String)
    (hd : dget o.actors aid = none) :
    iterBody o aid raw supply
      = { st := o, supply := supply, events := [], err := none } := by
  unfold iterBody
  rw [hd]

theorem iterBody_eq_some (o : Orch) (aid raw : String) (supply : List String) (a : Actor)
    (hd : dget o.actors aid = some a) :
    iterBody o aid raw supply =
      (if a.use_llm then
        match parsePhase raw with
        | Except.error e =>
          { st := buildPromptEffects o aid, supply := supply, events := [], err := some e }
        | Except.ok acts =>
          { st := (dispatchActions (buildPromptEffects o aid) aid acts supply).st,
            supply := (dispatchActions (buildPromptEffects o aid) aid acts supply).supply,
            events := (dispatchActions (buildPromptEffects o aid) aid acts supply).events,
            err := none }
      else { st := forwardBody o aid, supply := supply, events := [], err := none }) := by
  unfold iterBody
  rw [hd]

theorem iterBody_core (o : Orch) (aid raw : String) (supply : List String)
    (hne : aid ≠ "") (hns : aid ∉ supply) :
    stepImm (iterBody o aid raw supply).st aid = stepImm o aid ∧
    (iterBody o aid raw supply).st.max_sub_steps = o.max_sub_steps ∧
    ∃ n, (iterBody o aid raw supply).supply = supply.drop n := by
  cases hd : dget o.actors aid with
  | none =>
    rw [iterBody_eq_none o aid raw supply hd]
    exact ⟨rfl, rfl, ⟨0, rfl⟩⟩
  | some a =>
    rw [iterBody_eq_some o aid raw supply a hd]
    cases hllm : a.use_llm with
    | false =>
      exact ⟨stepImm_of_pres (pres_forwardBody aid aid o),
        (pres_forwardBody aid aid o).2, ⟨0, rfl⟩⟩
    | true =>
      cases hp : parsePhase raw with
      | error e =>
        exact ⟨stepImm_of_pres (pres_buildPromptEffects aid aid o),
          (pres_buildPromptEffects aid aid o).2, ⟨0, rfl⟩⟩
      | ok acts =>
        have hda := dispatchActions_core (buildPromptEffects o aid) aid acts supply hne hns
        exact ⟨hda.1.trans (stepImm_of_pres (pres_buildPromptEffects aid aid o)),
          hda.2.1.trans (pres_buildPromptEffects aid aid o).2, hda.2.2⟩

theorem runActor_zero (o : Orch) (aid : String) (raws supply : List String) :
    runActor 0 o aid raws supply = finalizeRun o aid := rfl

theorem runActor_succ_stop (fuel : Nat) (o : Orch) (aid : String)
    (raws supply : List String) (a : Actor) (hd : dget o.actors aid = some a)
    (hg : ¬(a.state.running = true ∧ (a.immortal = true ∨ a.state.step < o.max_sub_steps))) :
    runActor (fuel + 1) o aid raws supply = finalizeRun o aid := by
  show (match dget o.actors aid with
    | none => finalizeRun o aid
    | some a =>
      if a.state.running ∧ (a.immortal ∨ a.state.step < o.max_sub_steps) then
        let r := iterBody o aid (raws.headD "") supply
        match r.err with
        | some _ => finalizeRun r.st aid
        | none => runActor fuel (bumpStep r.st aid) aid raws.tail r.supply
      else finalizeRun o aid) = finalizeRun o aid
  rw [hd]
  show (if a.state.running ∧ (a.immortal ∨ a.state.step < o.max_sub_steps) then
      let r := iterBody o aid (raws.headD "") supply
      match r.err with
      | some _ => finalizeRun r.st aid
      | none => runActor fuel (bumpStep r.st aid) aid raws.tail r.supply
    else finalizeRun o aid) = finalizeRun o aid
  rw [if_neg hg]

theorem runActor_succ_err (fuel : Nat) (o : Orch) (aid : String)
    (raws supply : List String) (a : Actor) (e : String)
    (hd : dget o.actors aid = some a)
    (hg : a.state.running = true ∧ (a.immortal = true ∨ a.state.step < o.max_sub_steps))
    (he : (iterBody o aid (raws.headD "") supply).err = some e) :
    runActor (fuel + 1) o aid raws supply
      = finalizeRun (iterBody o aid (raws.headD "") supply).st aid := by
  show (match dget o.actors aid with
    | none => finalizeRun o aid
    | some a =>
      if a.state.running ∧ (a.immortal ∨ a.state.step < o.max_sub_steps) then
        let r := iterBody o aid (raws.headD "") supply
        match r.err with
        | some _ => finalizeRun r.st aid
        | none => runActor fuel (bumpStep r.st aid) aid raws.tail r.supply
      else finalizeRun o aid)
    = finalizeRun (iterBody o aid (raws.headD "") supply).st aid
  rw [hd]
  show (if a.state.running ∧ (a.immortal ∨ a.state.step < o.max_sub_steps) then
      let r := iterBody o aid (raws.headD "") supply
      match r.err with
      | some _ => finalizeRun r.st aid
      | none => runActor fuel (bumpStep r.st aid) aid raws.tail r.supply
    else finalizeRun o aid) = _
  rw [if_pos hg]
  show (match (iterBody o aid (raws.headD "") supply).err with
    | some _ => finalizeRun (iterBody o aid (raws.headD "") supply).st aid
    | none => runActor fuel (bumpStep (iterBody o aid (raws.headD "") supply).st aid)
        aid raws.tail (iterBody o aid (raws.headD "") supply).supply)
    = finalizeRun (iterBody o aid (raws.headD "") supply).st aid
  rw [he]

theorem runActor_succ_ok (fuel : Nat) (o : Orch) (aid : String)
    (raws supply : List String) (a : Actor)
    (hd : dget o.actors aid = some a)
    (hg : a.state.running = true ∧ (a.immortal = true ∨ a.state.step < o.max_sub_steps))
    (he : (iterBody o aid (raws.headD "") supply).err = none) :
    runActor (fuel + 1) o aid raws supply
      = runActor fuel (bumpStep (iterBody o aid (raws.headD "") supply).st aid)
          aid raws.tail (iterBody o aid (raws.headD "") supply).supply := by
  show (match dget o.actors aid with
    | none => finalizeRun o aid
    | some a =>
      if a.state.running ∧ (a.immortal ∨ a.state.step < o.max_sub_steps) then
        let r := iterBody o aid (raws.headD "") supply
        match r.err with
        | some _ => finalizeRun r.st aid
        | none => runActor fuel (bumpStep r.st aid) aid raws.tail r.supply
      else finalizeRun o aid)
    = runActor fuel (bumpStep (iterBody o aid (raws.headD "") supply).st aid)
        aid raws.tail (iterBody o aid (raws.headD "") supply).supply
  rw [hd]
  show (if a.state.running ∧ (a.immortal ∨ a.state.step < o.max_sub_steps) then
      let r := iterBody o aid (raws.headD "") supply
      match r.err with
      | some _ => finalizeRun r.st aid
      | none => runActor fuel (bumpStep r.st aid) aid raws.tail r.supply
    else finalizeRun o aid) = _
  rw [if_pos hg]
  show (match (iterBody o aid (raws.headD "") supply).err with
    | some _ => finalizeRun (iterBody o aid (raws.headD "") supply).st aid
    | none => runActor fuel (bumpStep (iterBody o aid (raws.headD "") supply).st aid)
        aid raws.tail (iterBody o aid (raws.headD "") supply).supply)
    = runActor fuel (bumpStep (iterBody o aid (raws.headD "") supply).st aid)
        aid raws.tail (iterBody o aid (raws.headD "") supply).supply
  rw [he]

/-- C7: the step budget and the unconditional cleanup of `Monologue.run`.
(1) Cancellation (fuel `0`) still runs the `finally` cleanup.  (2) For a
present actor whose guard fails — not running, or non-immortal with
`step ≥ max_sub_steps` — the loop body does not run: the call is exactly
the cleanup.  (3) One loop iteration (body plus `self.state.step += 1`)
increases the step counter by exactly one and never changes immortality.
(4) For every present non-immortal actor whose step counter is within the
budget, the run loop at any fuel leaves the actor present with
`running = false` and with its step counter still at most the budget. -/
theorem C7_step_budget_and_cleanup :
    (∀ o aid raws supply, runActor 0 o aid raws supply = finalizeRun o aid) ∧
    (∀ fuel o aid raws supply a, dget o.actors aid = some a →
       ¬(a.state.running = true ∧ (a.immortal = true ∨ a.state.step < o.max_sub_steps)) →
       runActor (fuel + 1) o aid raws supply = finalizeRun o aid) ∧
    (∀ o aid raw supply p, aid ≠ "" → aid ∉ supply → stepImm o aid = some p →
       stepImm (bumpStep (iterBody o aid raw supply).st aid) aid = some (p.1 + 1, p.2)) ∧
    (∀ fuel o aid raws supply a, dget o.actors aid = some a → a.immortal = false →
       aid ≠ "" → aid ∉ supply → a.state.step ≤ o.max_sub_steps →
       ∃ a', dget (runActor fuel o aid raws supply).actors aid = some a' ∧
         a'.state.running = false ∧ a'.state.step ≤ o.max_sub_steps) := by
  refine ⟨runActor_zero, runActor_succ_stop, ?_, ?_⟩
  · intro o aid raw supply p hne hns hsp
    rw [stepImm_bumpStep, (iterBody_core o aid raw supply hne hns).1, hsp]
    rfl
  · intro fuel
    induction fuel with
    | zero =>
      intro o aid raws supply a hd him hne hns hle
      exact ⟨{ a with state := { a.state with running := false } },
        finalizeRun_spec o aid a hd him, rfl, hle⟩
    | succ fuel ih =>
      intro o aid raws supply a hd him hne hns hle
      by_cases hg : a.state.running = true ∧ (a.immortal = true ∨ a.state.step < o.max_sub_steps)
      · have hstep : a.state.step < o.max_sub_steps := by
          rcases hg.2 with h | h
          · rw [him] at h; cases h
          · exact h
        have hcore := iterBody_core o aid (raws.headD "") supply hne hns
        cases herr2 : (iterBody o aid (raws.headD "") supply).err with
        | some e =>
          rw [runActor_succ_err fuel o aid raws supply a e hd hg herr2]
          have hsi : stepImm (iterBody o aid (raws.headD "") supply).st aid
              = some (a.state.step, false) := by
            rw [hcore.1, stepImm_eq_some_of hd, him]
          obtain ⟨a2, hd2, hs2, hi2⟩ := of_stepImm_eq_some hsi
          refine ⟨{ a2 with state := { a2.state with running := false } },
            finalizeRun_spec _ aid a2 hd2 hi2, rfl, ?_⟩
          show a2.state.step ≤ o.max_sub_steps
          rw [hs2]
          exact Nat.le_of_lt hstep
        | none =>
          rw [runActor_succ_ok fuel o aid raws supply a hd hg herr2]
          have hsi : stepImm (bumpStep (iterBody o aid (raws.headD "") supply).st aid) aid
              = some (a.state.step + 1, false) := by
            rw [stepImm_bumpStep, hcore.1, stepImm_eq_some_of hd, him]
            rfl
          obtain ⟨a3, hd3, hs3, hi3⟩ := of_stepImm_eq_some hsi
          obtain ⟨n, hsup⟩ := hcore.2.2
          have hns2 : aid ∉ (iterBody o aid (raws.headD "") supply).supply := by
            rw [hsup]
            intro hm
            exact hns (List.drop_subset n supply hm)
          have hmax : (bumpStep (iterBody o aid (raws.headD "") supply).st aid).max_sub_steps
              = o.max_sub_steps := hcore.2.1
          have hle3 : a3.state.step
              ≤ (bumpStep (iterBody o aid (raws.headD "") supply).st aid).max_sub_steps := by
            rw [hmax, hs3]
            exact hstep
          obtain ⟨a', hA, hR, hS⟩ := ih (bumpStep (iterBody o aid (raws.headD "") supply).st aid)
            aid raws.tail (iterBody o aid (raws.headD "") supply).supply a3 hd3 hi3 hne hns2 hle3
          refine ⟨a', hA, hR, ?_⟩
          rw [← hmax]
          exact hS
      · rw [runActor_succ_stop fuel o aid raws supply a hd hg]
        exact ⟨{ a with state := { a.state with running := false } },
          finalizeRun_spec o aid a hd him, rfl, hle⟩

theorem C7_step_budget_and_cleanup_witness :
    ∃ a', dget (runActor 3 wOrch "s1" ["not json", "x"] []).actors "s1" = some a' ∧
      a'.state.running = false ∧ a'.state.step ≤ wOrch.max_sub_steps :=
  C7_step_budget_and_cleanup.2.2.2 3 wOrch "s1" ["not json", "x"] [] wSub1
    rfl rfl (by decide) (by decide) (by decide)

end VAxion
